import Mathlib

/-!
# Verification of the AI4All worker core

Shallow embedding of the AI4All worker (Rust, `src/worker/src/`) together
with proofs about its task tracker, executor, backend registry, coordinator
session backoff, peer mesh broadcast, and protocol-message JSON round-trip.

Modelling conventions:
* Rust `u32`/`u64`/`usize` fields are modelled as `Nat`; no arithmetic in the
  modelled code paths can overflow the Rust widths for the values considered.
* Rust `f32` fields are modelled as exact rationals (`ℚ`): `serde_json`
  prints every finite float in shortest round-trip decimal form, so finite
  float values survive encode/decode exactly; non-finite floats do not occur
  in valid messages.
* `uuid::Uuid` and `chrono::DateTime<Utc>` values are modelled by their
  canonical JSON (string) renderings, through which they round-trip exactly.
* `std::time::Instant` is modelled as a `Nat` millisecond clock passed
  explicitly to each operation that calls `Instant::now()`.
* `HashMap<String, _>` is modelled as an association list with replacing
  insertion; all trackers reachable from `TaskTracker::new` have nodup keys.
-/

namespace AI4All

/-! ## JSON values (`serde_json::Value`) -/

/-- A JSON value, used both for `serde_json::Value`-typed fields and as the
target of the message encoders (modelling `serde_json` serialization). -/
inductive Json where
  | null : Json
  | bool (b : Bool) : Json
  | num (q : ℚ) : Json
  | str (s : String) : Json
  | arr (elems : List Json) : Json
  | obj (fields : List (String × Json)) : Json

/-! ## `types/task.rs` -/

/-- `TaskType` (types/task.rs): the kinds of AI tasks a worker can execute. -/
inductive TaskType where
  | textCompletion
  | embeddings
  | classification
  | questionAnswering
  | summarization
  | trainingBatch
  | validation
  | webCrawl
deriving DecidableEq

/-- `TokenUsage` (types/task.rs). -/
structure TokenUsage where
  prompt_tokens : Nat
  completion_tokens : Nat
  total_tokens : Nat
deriving DecidableEq

/-- `FinishReason` (types/task.rs), serialized in snake_case. -/
inductive FinishReason where
  | length
  | stop
  | contentFilter
  | cancelled
  | error
deriving DecidableEq

/-- `GenerationParams` (types/task.rs); f32 fields modelled as ℚ. -/
structure GenerationParams where
  max_tokens : Nat
  temperature : ℚ
  top_p : ℚ
  top_k : Nat
  repetition_penalty : ℚ
  stop_sequences : List String
  seed : Option Nat
deriving DecidableEq

/-- `GenerationParams::default` (types/task.rs). -/
def GenerationParams.default : GenerationParams :=
  { max_tokens := 256, temperature := 7/10, top_p := 9/10, top_k := 0,
    repetition_penalty := 11/10, stop_sequences := [], seed := none }

/-- `TextCompletionInput` (types/task.rs); `params` is `#[serde(flatten)]`ed. -/
structure TextCompletionInput where
  prompt : String
  system_prompt : Option String
  params : GenerationParams
deriving DecidableEq

/-- `TextCompletionOutput` (types/task.rs). -/
structure TextCompletionOutput where
  text : String
  finish_reason : FinishReason
  usage : TokenUsage
  generation_time_ms : Nat
deriving DecidableEq

/-- `EmbeddingsInput` (types/task.rs). -/
structure EmbeddingsInput where
  texts : List String
  normalize : Bool
deriving DecidableEq

/-- `EmbeddingsOutput` (types/task.rs); embedding vectors are f32 = ℚ. -/
structure EmbeddingsOutput where
  embeddings : List (List ℚ)
  dimensions : Nat
  usage : TokenUsage
deriving DecidableEq

/-- `ClassificationInput` (types/task.rs). -/
structure ClassificationInput where
  text : String
  labels : List String
  multi_label : Bool
deriving DecidableEq

/-- `ClassificationPrediction` (types/task.rs). -/
structure ClassificationPrediction where
  label : String
  score : ℚ
deriving DecidableEq

/-- `ClassificationOutput` (types/task.rs). -/
structure ClassificationOutput where
  predictions : List ClassificationPrediction
  usage : TokenUsage
deriving DecidableEq

/-- `QuestionAnsweringInput` (types/task.rs); `params` flattened. -/
structure QuestionAnsweringInput where
  question : String
  context : String
  params : GenerationParams
deriving DecidableEq

/-- `QuestionAnsweringOutput` (types/task.rs). -/
structure QuestionAnsweringOutput where
  answer : String
  confidence : Option ℚ
  evidence_spans : List (Nat × Nat)
  usage : TokenUsage
deriving DecidableEq

/-- `SummarizationStyle` (types/task.rs), snake_case. -/
inductive SummarizationStyle where
  | bullets
  | paragraph
  | tldr
deriving DecidableEq

/-- `SummarizationInput` (types/task.rs); `params` flattened. -/
structure SummarizationInput where
  text : String
  target_length : Nat
  style : SummarizationStyle
  params : GenerationParams
deriving DecidableEq

/-- `SummarizationOutput` (types/task.rs). -/
structure SummarizationOutput where
  summary : String
  compression_ratio : ℚ
  usage : TokenUsage
deriving DecidableEq

/-- `TrainingExample` (types/task.rs). -/
structure TrainingExample where
  input : String
  output : String
deriving DecidableEq

/-- `TrainingBatchInput` (types/task.rs). -/
structure TrainingBatchInput where
  examples : List TrainingExample
  lora_rank : Nat
  learning_rate : ℚ
  epochs : Nat
deriving DecidableEq

/-- `TrainingBatchOutput` (types/task.rs). -/
structure TrainingBatchOutput where
  final_loss : ℚ
  loss_history : List ℚ
  lora_weights : Option String
  examples_processed : Nat
deriving DecidableEq

/-- `ValidationTask` (types/task.rs), internally tagged by `type` with the
Rust variant names (no rename_all on this enum). -/
inductive ValidationTask where
  | textCompletion (input : TextCompletionInput)
  | embeddings (input : EmbeddingsInput)
deriving DecidableEq

/-- `ValidationInput` (types/task.rs). -/
structure ValidationInput where
  task : ValidationTask
  expected_hash : String
deriving DecidableEq

/-- `ValidationOutput` (types/task.rs); `result` is a raw `serde_json::Value`. -/
structure ValidationOutput where
  valid : Bool
  answer_hash : String
  result : Option Json

/-- `WebCrawlInput` (types/task.rs). -/
structure WebCrawlInput where
  url : String
  max_depth : Nat
  max_pages : Nat
  generate_embeddings : Bool
  allowed_domains : List String
deriving DecidableEq

/-- `CrawledPage` (types/task.rs). -/
structure CrawledPage where
  url : String
  title : Option String
  text : String
  embedding : Option (List ℚ)
  links : List String
  fetched_at : String
  content_hash : String
deriving DecidableEq

/-- `WebCrawlOutput` (types/task.rs). -/
structure WebCrawlOutput where
  pages : List CrawledPage
  total_fetched : Nat
  total_text_chars : Nat
  errors : List String
deriving DecidableEq

/-- `TaskInput` (types/task.rs), internally tagged by `task_type` with
SCREAMING_SNAKE_CASE renames. -/
inductive TaskInput where
  | textCompletion (input : TextCompletionInput)
  | embeddings (input : EmbeddingsInput)
  | classification (input : ClassificationInput)
  | questionAnswering (input : QuestionAnsweringInput)
  | summarization (input : SummarizationInput)
  | trainingBatch (input : TrainingBatchInput)
  | validation (input : ValidationInput)
  | webCrawl (input : WebCrawlInput)
deriving DecidableEq

/-- `TaskInput::task_type` (types/task.rs). -/
def TaskInput.task_type : TaskInput → TaskType
  | .textCompletion _ => .textCompletion
  | .embeddings _ => .embeddings
  | .classification _ => .classification
  | .questionAnswering _ => .questionAnswering
  | .summarization _ => .summarization
  | .trainingBatch _ => .trainingBatch
  | .validation _ => .validation
  | .webCrawl _ => .webCrawl

/-- `TaskOutput` (types/task.rs), internally tagged by `task_type`. -/
inductive TaskOutput where
  | textCompletion (output : TextCompletionOutput)
  | embeddings (output : EmbeddingsOutput)
  | classification (output : ClassificationOutput)
  | questionAnswering (output : QuestionAnsweringOutput)
  | summarization (output : SummarizationOutput)
  | trainingBatch (output : TrainingBatchOutput)
  | validation (output : ValidationOutput)
  | webCrawl (output : WebCrawlOutput)

/-! ## `protocol/version.rs` -/

/-- `ProtocolVersion` (protocol/version.rs). -/
structure ProtocolVersion where
  major : Nat
  minor : Nat
  patch : Nat
deriving DecidableEq

/-- `PROTOCOL_VERSION` (protocol/version.rs). -/
def PROTOCOL_VERSION : ProtocolVersion := ⟨1, 0, 0⟩

/-! ## `protocol/messages.rs` -/

/-- `WorkerCapabilities` (protocol/messages.rs). -/
structure WorkerCapabilities where
  supported_tasks : List TaskType
  max_concurrent_tasks : Nat
  available_memory_mb : Nat
  gpu_available : Bool
  gpu_device : Option String
  gpu_memory_mb : Option Nat
  max_context_length : Nat
  worker_version : String
deriving DecidableEq

/-- `RegisterRequest` (protocol/messages.rs). -/
structure RegisterRequest where
  worker_id : Option String
  name : String
  capabilities : WorkerCapabilities
  tags : List String
  auth_token : Option String
deriving DecidableEq

/-- `RegisterAckResponse` (protocol/messages.rs). -/
structure RegisterAckResponse where
  success : Bool
  worker_id : String
  session_token : Option String
  heartbeat_interval_secs : Nat
  coordinator_version : ProtocolVersion
  error : Option String
deriving DecidableEq

/-- `ResourceUsageReport` (protocol/messages.rs); f32 percentages as ℚ. -/
structure ResourceUsageReport where
  cpu_percent : ℚ
  memory_used_mb : Nat
  memory_available_mb : Nat
  gpu_percent : Option ℚ
  gpu_memory_used_mb : Option Nat
  active_threads : Nat
deriving DecidableEq

/-- `WorkerStatus` (protocol/messages.rs), SCREAMING_SNAKE_CASE. -/
inductive WorkerStatus where
  | ready
  | busy
  | paused
  | draining
  | error
deriving DecidableEq

/-- `HeartbeatRequest` (protocol/messages.rs). -/
structure HeartbeatRequest where
  worker_id : String
  status : WorkerStatus
  resources : ResourceUsageReport
  active_tasks : List String
  completed_task_count : Nat
  uptime_secs : Nat
deriving DecidableEq

/-- `PendingAction` (protocol/messages.rs), internally tagged by `action`;
the config payload is a raw `serde_json::Value`. -/
inductive PendingAction where
  | cancelTask (task_id : String)
  | pause
  | resume
  | updateConfig (config : Json)
  | shutdown (reason : String)

/-- `HeartbeatAckResponse` (protocol/messages.rs); `next_heartbeat` is a
`DateTime<Utc>`, modelled by its RFC 3339 rendering. -/
structure HeartbeatAckResponse where
  accepted : Bool
  next_heartbeat : String
  pending_actions : List PendingAction

/-- `TaskPriority` (protocol/messages.rs), SCREAMING_SNAKE_CASE. -/
inductive TaskPriority where
  | low
  | normal
  | high
  | critical
deriving DecidableEq

/-- `TaskAssignmentMessage` (protocol/messages.rs); `deadline` is an optional
`DateTime<Utc>` modelled as its string rendering. -/
structure TaskAssignmentMessage where
  task_id : String
  block_id : Option String
  day_id : Option String
  priority : TaskPriority
  deadline : Option String
  model_id : String
  input : TaskInput
  is_canary : Bool
  expected_hash : Option String
  timeout_secs : Nat
deriving DecidableEq

/-- `TaskError` (protocol/messages.rs); `details` is a raw JSON value. -/
structure TaskError where
  code : String
  message : String
  retryable : Bool
  details : Option Json

/-- `TaskMetrics` (protocol/messages.rs). -/
structure TaskMetrics where
  queue_time_ms : Nat
  execution_time_ms : Nat
  total_time_ms : Nat
  tokens_processed : Option Nat
  tokens_per_second : Option ℚ
  peak_memory_mb : Option Nat
  peak_gpu_memory_mb : Option Nat

/-- `TaskMetrics::default` (derived `Default` in protocol/messages.rs). -/
def TaskMetrics.default : TaskMetrics :=
  { queue_time_ms := 0, execution_time_ms := 0, total_time_ms := 0,
    tokens_processed := none, tokens_per_second := none,
    peak_memory_mb := none, peak_gpu_memory_mb := none }

/-- `TaskResultMessage` (protocol/messages.rs). -/
structure TaskResultMessage where
  task_id : String
  worker_id : String
  success : Bool
  output : Option TaskOutput
  error : Option TaskError
  metrics : TaskMetrics

/-- `TaskCancelMessage` (protocol/messages.rs). -/
structure TaskCancelMessage where
  task_id : String
  reason : String
  force : Bool
deriving DecidableEq

/-- `StatusUpdateMessage` (protocol/messages.rs). -/
structure StatusUpdateMessage where
  worker_id : String
  status : WorkerStatus
  reason : Option String
deriving DecidableEq

/-- `ConfigUpdateMessage` (protocol/messages.rs). -/
structure ConfigUpdateMessage where
  config : Json
  persist : Bool

/-- `ShutdownMessage` (protocol/messages.rs). -/
structure ShutdownMessage where
  worker_id : String
  reason : String
  graceful : Bool
  abandoned_tasks : List String
deriving DecidableEq

/-- `ErrorMessage` (protocol/messages.rs); `related_message_id` is an
optional `Uuid`, modelled as its string rendering. -/
structure ErrorMessage where
  code : String
  message : String
  related_message_id : Option String
  fatal : Bool
deriving DecidableEq

/-- `PeerDiscoverMessage` (protocol/messages.rs). -/
structure PeerDiscoverMessage where
  worker_id : String
  listen_addr : String
  capabilities : WorkerCapabilities
deriving DecidableEq

/-- `PeerDirectoryEntry` (protocol/messages.rs). -/
structure PeerDirectoryEntry where
  worker_id : String
  name : String
  listen_addr : String
  capabilities : WorkerCapabilities
  status : WorkerStatus
deriving DecidableEq

/-- `PeerDirectoryMessage` (protocol/messages.rs). -/
structure PeerDirectoryMessage where
  peers : List PeerDirectoryEntry
deriving DecidableEq

/-- `GroupPurposeMessage` (protocol/messages.rs), internally tagged by
`type`, SCREAMING_SNAKE_CASE. -/
inductive GroupPurposeMessage where
  | modelShard (model_id : String) (total_shards : Nat)
  | taskPipeline (pipeline_id : String) (stages : List TaskType)
  | general
deriving DecidableEq

/-- `GroupMemberMessage` (protocol/messages.rs). -/
structure GroupMemberMessage where
  worker_id : String
  role : String
  shard_index : Option Nat
  pipeline_stage : Option Nat
deriving DecidableEq

/-- `GroupAssignedMessage` (protocol/messages.rs). -/
structure GroupAssignedMessage where
  group_id : String
  purpose : GroupPurposeMessage
  members : List GroupMemberMessage
deriving DecidableEq

/-- `GroupUpdateMessage` (protocol/messages.rs). -/
structure GroupUpdateMessage where
  group_id : String
  members : List GroupMemberMessage
  disbanded : Bool
deriving DecidableEq

/-- `Message` (protocol/messages.rs), internally tagged by `type` with
SCREAMING_SNAKE_CASE variant names. -/
inductive Message where
  | register (r : RegisterRequest)
  | heartbeat (h : HeartbeatRequest)
  | taskResult (r : TaskResultMessage)
  | statusUpdate (s : StatusUpdateMessage)
  | shutdown (s : ShutdownMessage)
  | registerAck (a : RegisterAckResponse)
  | heartbeatAck (a : HeartbeatAckResponse)
  | taskAssignment (t : TaskAssignmentMessage)
  | taskCancel (c : TaskCancelMessage)
  | configUpdate (c : ConfigUpdateMessage)
  | error (e : ErrorMessage)
  | peerDiscover (p : PeerDiscoverMessage)
  | peerDirectory (p : PeerDirectoryMessage)
  | groupAssigned (g : GroupAssignedMessage)
  | groupUpdate (g : GroupUpdateMessage)

/-- `MessageEnvelope` (protocol/messages.rs); `id : Uuid` and
`timestamp : DateTime<Utc>` are modelled by their canonical string
renderings, and `payload` is `#[serde(flatten)]`ed. -/
structure MessageEnvelope where
  id : String
  timestamp : String
  version : ProtocolVersion
  payload : Message

/-! ## `executor/state.rs`: task state and tracker -/

/-- `TaskSource` (executor/state.rs). -/
inductive TaskSource where
  | coordinator
  | peer (worker_id : String)
  | httpPolled
deriving DecidableEq

/-- `TaskState` (executor/state.rs). -/
inductive TaskState where
  | queued
  | running
  | completed
  | failed
  | cancelled
deriving DecidableEq

/-- A task state counts against the concurrency cap when it is Running or
Queued: this is the filter used in `TaskTracker::add_task`, `can_accept`
and `active_task_ids` (executor/state.rs). -/
def TaskState.isActive : TaskState → Bool
  | .running => true
  | .queued => true
  | _ => false

/-- The terminal states, as matched by `TaskTracker::cleanup_old_tasks`
(executor/state.rs:349): Completed, Failed or Cancelled. -/
def TaskState.isTerminal : TaskState → Bool
  | .completed => true
  | .failed => true
  | .cancelled => true
  | _ => false

/-- `ActiveTask` (executor/state.rs). `Instant`s are Nat milliseconds;
`cancel_tx : Option<oneshot::Sender<()>>` is modelled by its presence. -/
structure ActiveTask where
  assignment : TaskAssignmentMessage
  state : TaskState
  received_at : Nat
  started_at : Option Nat
  completed_at : Option Nat
  cancel_tx : Bool
  error : Option String
  tokens_processed : Nat
  source : TaskSource
deriving DecidableEq

/-- `ActiveTask::new` (executor/state.rs); `now` stands for the
`Instant::now()` call. -/
def ActiveTask.new (assignment : TaskAssignmentMessage) (now : Nat) : ActiveTask :=
  { assignment := assignment
    state := .queued
    received_at := now
    started_at := none
    completed_at := none
    cancel_tx := false
    error := none
    tokens_processed := 0
    source := .coordinator }

/-- `ActiveTask::mark_running` (executor/state.rs): unconditionally sets
the state to Running and records the start time. -/
def ActiveTask.mark_running (t : ActiveTask) (now : Nat) : ActiveTask :=
  { t with state := .running, started_at := some now }

/-- `ActiveTask::mark_completed` (executor/state.rs). -/
def ActiveTask.mark_completed (t : ActiveTask) (now : Nat) : ActiveTask :=
  { t with state := .completed, completed_at := some now }

/-- `ActiveTask::mark_failed` (executor/state.rs). -/
def ActiveTask.mark_failed (t : ActiveTask) (err : String) (now : Nat) : ActiveTask :=
  { t with state := .failed, completed_at := some now, error := some err }

/-- `ActiveTask::mark_cancelled` (executor/state.rs). -/
def ActiveTask.mark_cancelled (t : ActiveTask) (now : Nat) : ActiveTask :=
  { t with state := .cancelled, completed_at := some now }

/-- `ActiveTask::queue_time_ms` (executor/state.rs). -/
def ActiveTask.queue_time_ms (t : ActiveTask) : Nat :=
  match t.started_at with
  | some s => s - t.received_at
  | none => 0

/-- `ActiveTask::execution_time_ms` (executor/state.rs); `now` models the
`start.elapsed()` clock reading for a still-running task. -/
def ActiveTask.execution_time_ms (t : ActiveTask) (now : Nat) : Nat :=
  match t.started_at, t.completed_at with
  | some s, some e => e - s
  | some s, none => now - s
  | _, _ => 0

/-- `ActiveTask.total_time_ms` (executor/state.rs). -/
def ActiveTask.total_time_ms (t : ActiveTask) (now : Nat) : Nat :=
  match t.completed_at with
  | some e => e - t.received_at
  | none => now - t.received_at

/-- `ActiveTask::calculate_tokens_per_second` (executor/state.rs). -/
def ActiveTask.calculate_tokens_per_second (t : ActiveTask) (now : Nat) : Option ℚ :=
  if t.tokens_processed = 0 then none
  else
    let exec_time := t.execution_time_ms now
    if exec_time = 0 then none
    else some ((t.tokens_processed : ℚ) / ((exec_time : ℚ) / 1000))

/-- `ActiveTask::metrics` (executor/state.rs). -/
def ActiveTask.metrics (t : ActiveTask) (now : Nat) : TaskMetrics :=
  { queue_time_ms := t.queue_time_ms
    execution_time_ms := t.execution_time_ms now
    total_time_ms := t.total_time_ms now
    tokens_processed := if t.tokens_processed > 0 then some t.tokens_processed else none
    tokens_per_second := t.calculate_tokens_per_second now
    peak_memory_mb := none
    peak_gpu_memory_mb := none }

/-- The task table of a `TaskTracker`: `HashMap<String, ActiveTask>`
modelled as an association list with unique keys. -/
abbrev TaskTable := List (String × ActiveTask)

/-- `HashMap::insert`: replace the entry with the given key if present,
otherwise add the new entry. -/
def TaskTable.insert (l : TaskTable) (id : String) (t : ActiveTask) : TaskTable :=
  match l with
  | [] => [(id, t)]
  | (k, v) :: rest =>
    if k = id then (id, t) :: rest else (k, v) :: TaskTable.insert rest id t

/-- `HashMap::get` / `get_mut` lookup. -/
def TaskTable.lookup (l : TaskTable) (id : String) : Option ActiveTask :=
  match l with
  | [] => none
  | (k, v) :: rest => if k = id then some v else TaskTable.lookup rest id

/-- Mutation through `HashMap::get_mut`: apply `f` to the entry with the
given key, if present. -/
def TaskTable.modify (l : TaskTable) (id : String) (f : ActiveTask → ActiveTask) :
    TaskTable :=
  match l with
  | [] => []
  | (k, v) :: rest =>
    if k = id then (k, f v) :: rest else (k, v) :: TaskTable.modify rest id f

/-- `TaskTracker` (executor/state.rs). -/
structure TaskTracker where
  tasks : TaskTable
  max_concurrent : Nat
  completed_count : Nat
  failed_count : Nat
deriving DecidableEq

/-- `TaskTracker::new` (executor/state.rs). -/
def TaskTracker.new (max_concurrent : Nat) : TaskTracker :=
  { tasks := [], max_concurrent := max_concurrent,
    completed_count := 0, failed_count := 0 }

/-- The count `tasks.values().filter(Running || Queued).count()` used by
`add_task` and `can_accept` (executor/state.rs:236-238, 327-329). -/
def TaskTracker.activeCount (t : TaskTracker) : Nat :=
  t.tasks.countP fun e => e.2.state.isActive

/-- `TaskTracker::add_task` (executor/state.rs:232-247): reject when the
Running+Queued count has reached `max_concurrent`, otherwise insert a fresh
Queued task under its task id (replacing any entry with that id). -/
def TaskTracker.add_task (t : TaskTracker) (assignment : TaskAssignmentMessage)
    (now : Nat) : Bool × TaskTracker :=
  let running_count := t.activeCount
  if running_count ≥ t.max_concurrent then
    (false, t)
  else
    (true, { t with tasks := t.tasks.insert assignment.task_id (ActiveTask.new assignment now) })

/-- `TaskTracker::mark_running` (executor/state.rs:250-258). -/
def TaskTracker.mark_running (t : TaskTracker) (task_id : String) (now : Nat) :
    Bool × TaskTracker :=
  match t.tasks.lookup task_id with
  | some _ => (true, { t with tasks := t.tasks.modify task_id (·.mark_running now) })
  | none => (false, t)

/-- `TaskTracker::mark_completed` (executor/state.rs:261-267). -/
def TaskTracker.mark_completed (t : TaskTracker) (task_id : String) (now : Nat) :
    TaskTracker :=
  match t.tasks.lookup task_id with
  | some _ =>
    { t with tasks := t.tasks.modify task_id (·.mark_completed now),
             completed_count := t.completed_count + 1 }
  | none => t

/-- `TaskTracker::mark_failed` (executor/state.rs:270-276). -/
def TaskTracker.mark_failed (t : TaskTracker) (task_id : String) (err : String)
    (now : Nat) : TaskTracker :=
  match t.tasks.lookup task_id with
  | some _ =>
    { t with tasks := t.tasks.modify task_id (·.mark_failed err now),
             failed_count := t.failed_count + 1 }
  | none => t

/-- `TaskTracker::cancel_task` (executor/state.rs:279-292): only a Running
or Queued task is cancelled (taking and firing its cancel signal). -/
def TaskTracker.cancel_task (t : TaskTracker) (task_id : String) (now : Nat) :
    Bool × TaskTracker :=
  match t.tasks.lookup task_id with
  | some task =>
    if task.state = .running ∨ task.state = .queued then
      let f := fun tk => ActiveTask.mark_cancelled { tk with cancel_tx := false } now
      (true, { t with tasks := t.tasks.modify task_id f })
    else
      (false, t)
  | none => (false, t)

/-- `TaskTracker::get_metrics` (executor/state.rs:295-297). -/
def TaskTracker.get_metrics (t : TaskTracker) (task_id : String) (now : Nat) :
    Option TaskMetrics :=
  (t.tasks.lookup task_id).map (·.metrics now)

/-- `TaskTracker::running_count` (executor/state.rs:309-314). -/
def TaskTracker.running_count (t : TaskTracker) : Nat :=
  t.tasks.countP fun e => e.2.state == .running

/-- `TaskTracker::queued_count` (executor/state.rs:317-322). -/
def TaskTracker.queued_count (t : TaskTracker) : Nat :=
  t.tasks.countP fun e => e.2.state == .queued

/-- `TaskTracker::can_accept` (executor/state.rs:325-331). -/
def TaskTracker.can_accept (t : TaskTracker) : Bool :=
  t.activeCount < t.max_concurrent

/-- The comparison `a.1.cmp(&b.1)` on `Option<Instant>` used to sort
terminal tasks by completion time (`Ord` on `Option`: `None` is least). -/
def optInstantLe : Option Nat → Option Nat → Bool
  | none, _ => true
  | some _, none => false
  | some a, some b => a ≤ b

/-- `TaskTracker::cleanup_old_tasks` (executor/state.rs:344-360): collect
terminal entries, sort them by completion time (a stable sort, modelled by
insertion sort), and remove the oldest ones beyond `keep_count`. -/
def TaskTracker.cleanup_old_tasks (t : TaskTracker) (keep_count : Nat) : TaskTracker :=
  let completed : List (String × Option Nat) :=
    (t.tasks.filter fun e => e.2.state.isTerminal).map fun e => (e.1, e.2.completed_at)
  let sorted := completed.insertionSort fun a b => optInstantLe a.2 b.2 = true
  let to_remove := sorted.length - keep_count
  let victims := (sorted.take to_remove).map Prod.fst
  { t with tasks := t.tasks.filter fun e => ! victims.contains e.1 }

/-! ### Operation traces over the tracker

The public mutating operations of `TaskTracker` (executor/state.rs), as an
operation alphabet, so that invariants can be stated over every sequence of
operations starting from `TaskTracker::new`. -/

/-- One mutating `TaskTracker` call; `now` arguments stand for the
`Instant::now()` readings taken inside the call. -/
inductive TrackerOp where
  | add (assignment : TaskAssignmentMessage) (now : Nat)
  | markRunning (task_id : String) (now : Nat)
  | markCompleted (task_id : String) (now : Nat)
  | markFailed (task_id : String) (err : String) (now : Nat)
  | cancel (task_id : String) (now : Nat)
  | cleanup (keep_count : Nat)

/-- Apply one tracker operation (discarding the returned booleans). -/
def TaskTracker.applyOp (t : TaskTracker) : TrackerOp → TaskTracker
  | .add a now => (t.add_task a now).2
  | .markRunning id now => (t.mark_running id now).2
  | .markCompleted id now => t.mark_completed id now
  | .markFailed id err now => t.mark_failed id err now
  | .cancel id now => (t.cancel_task id now).2
  | .cleanup keep => t.cleanup_old_tasks keep

/-- Run a sequence of tracker operations. -/
def TaskTracker.runOps (t : TaskTracker) : List TrackerOp → TaskTracker
  | [] => t
  | op :: rest => (t.applyOp op).runOps rest

/-- Whether an operation is guarded in state `t`: a `mark_running` call
must not target a task that is currently in a terminal state. (Every other
operation is always guarded; `TaskTracker::mark_running` itself performs
no such check.) -/
def TrackerOp.guardOK (op : TrackerOp) (t : TaskTracker) : Bool :=
  match op with
  | .markRunning id _ =>
    match t.tasks.lookup id with
    | some task => ! task.state.isTerminal
    | none => true
  | _ => true

/-- A trace is guarded when each of its operations is guarded in the state
where it is applied. -/
def TaskTracker.guardedOps (t : TaskTracker) : List TrackerOp → Bool
  | [] => true
  | op :: rest => op.guardOK t && (t.applyOp op).guardedOps rest

/-! ## `error.rs`: the worker error type (executor-relevant subset)

Only the `Error` variants that the executor paths in
`executor/runner.rs` can produce are modelled, together with their
`Error::code` and `Error::is_retryable` classifications (error.rs). -/

/-- The subset of `Error` (error.rs) reachable from `TaskExecutor::submit`
and `run_inference`. -/
inductive WorkerError where
  | resourceLimit (msg : String)
  | notSupported (msg : String)
  | execution (msg : String)
  | timeout (msg : String)
  | connection (msg : String)
deriving DecidableEq

/-- `Error::code` (error.rs:334-388) restricted to the modelled variants,
returning the numeric `ErrorCode` discriminant. -/
def WorkerError.code : WorkerError → Nat
  | .resourceLimit _ => 700
  | .notSupported _ => 902
  | .execution _ => 500
  | .timeout _ => 501
  | .connection _ => 300

/-- `Error::is_retryable` (error.rs:391-404) restricted to the modelled
variants. -/
def WorkerError.is_retryable : WorkerError → Bool
  | .timeout _ => true
  | .connection _ => true
  | _ => false

/-- The `Display` rendering (`e.to_string()`) of the modelled `Error`
variants, from their `thiserror` format strings (error.rs). -/
def WorkerError.toMessage : WorkerError → String
  | .resourceLimit msg => "Resource limit exceeded: " ++ msg
  | .notSupported msg => "Not supported: " ++ msg
  | .execution msg => "Execution error: " ++ msg
  | .timeout msg => "Task timeout: " ++ msg
  | .connection msg => "Connection error: " ++ msg

/-! ## `backend/registry.rs`: backend types and registry -/

/-- `BackendType` (backend/registry.rs). -/
inductive BackendType where
  | cpu
  | cuda
  | rocm
  | vulkan
  | openAi
  | mock
  | crawler
deriving DecidableEq

/-- `BackendType::all` (backend/registry.rs:40-50). -/
def BackendType.all : List BackendType :=
  [.cpu, .cuda, .rocm, .vulkan, .openAi, .mock, .crawler]

/-- The state of a `BackendRegistry`'s `backends` map
(backend/registry.rs): each registered backend is represented by the
`supported_tasks` list of its `capabilities()`, which is all the
selection logic reads. -/
def BackendRegistry := BackendType → Option (List TaskType)

/-- Whether a registered backend of the given type supports the task type
(`caps.supported_tasks.contains(&task_type)`). -/
def BackendRegistry.supports (reg : BackendRegistry) (bt : BackendType)
    (tt : TaskType) : Bool :=
  match reg bt with
  | some caps => caps.contains tt
  | none => false

/-- The `priority` array of `BackendRegistry::best_backend_for_task`
(backend/registry.rs:317-325), in source order. -/
def BackendRegistry.priority : List BackendType :=
  [.cuda, .rocm, .vulkan, .openAi, .cpu, .crawler, .mock]

/-- The scanning loop of `best_backend_for_task`
(backend/registry.rs:327-334): try each backend type in order, returning
the first registered one whose capabilities contain the task type. -/
def BackendRegistry.bestLoop (reg : BackendRegistry) (tt : TaskType) :
    List BackendType → Option (BackendType × List TaskType)
  | [] => none
  | bt :: rest =>
    match reg bt with
    | some caps => if caps.contains tt then some (bt, caps) else reg.bestLoop tt rest
    | none => reg.bestLoop tt rest

/-- `BackendRegistry::best_backend_for_task` (backend/registry.rs:310-337). -/
def BackendRegistry.best_backend_for_task (reg : BackendRegistry) (tt : TaskType) :
    Option (BackendType × List TaskType) :=
  reg.bestLoop tt BackendRegistry.priority

/-- The spec's backend priority order, written from §4.1 of the spec:
"GPU-native > cross-vendor GPU > HTTP-API > CPU > special-purpose > mock",
i.e. CUDA, ROCm, Vulkan, OpenAI, CPU, crawler, mock. -/
def specPriorityOrder : List BackendType :=
  [.cuda, .rocm, .vulkan, .openAi, .cpu, .crawler, .mock]

/-! ## `executor/runner.rs`: the task executor -/

/-- `TaskExecutor::can_handle_task_type` (executor/runner.rs:142-147):
some registered backend advertises the task type. -/
def can_handle_task_type (reg : BackendRegistry) (tt : TaskType) : Bool :=
  BackendType.all.any fun bt => reg.supports bt tt

/-- The outcome of the timed backend call in `execute_task`
(executor/runner.rs:206-209): the inner `run_inference` future resolved
`Ok`, resolved `Err`, or the `tokio::time::timeout` elapsed first. -/
inductive ExecOutcome where
  | ok (output : TaskOutput)
  | err (e : WorkerError)
  | timedOut

/-- `execute_task` (executor/runner.rs:190-280) as a state transformer:
marks the task running at clock `t1`, settles it at clock `t2` according
to the backend outcome, and returns the updated tracker together with the
single `TaskResultMessage` sent on the result channel. -/
def execute_task (tracker : TaskTracker) (assignment : TaskAssignmentMessage)
    (worker_id : String) (outcome : ExecOutcome) (t1 t2 : Nat) :
    TaskTracker × TaskResultMessage :=
  let task_id := assignment.task_id
  let tracker := (tracker.mark_running task_id t1).2
  match outcome with
  | .ok output =>
    let tracker := tracker.mark_completed task_id t2
    let metrics := (tracker.get_metrics task_id t2).getD TaskMetrics.default
    (tracker,
      { task_id := task_id, worker_id := worker_id, success := true,
        output := some output, error := none, metrics := metrics })
  | .err e =>
    let error_msg := e.toMessage
    let tracker := tracker.mark_failed task_id error_msg t2
    let metrics := (tracker.get_metrics task_id t2).getD TaskMetrics.default
    (tracker,
      { task_id := task_id, worker_id := worker_id, success := false,
        output := none,
        error := some { code := "E" ++ toString e.code, message := error_msg,
                        retryable := e.is_retryable, details := none },
        metrics := metrics })
  | .timedOut =>
    let error_msg :=
      "Task timed out after " ++ toString assignment.timeout_secs ++ " seconds"
    let tracker := tracker.mark_failed task_id error_msg t2
    let metrics := (tracker.get_metrics task_id t2).getD TaskMetrics.default
    (tracker,
      { task_id := task_id, worker_id := worker_id, success := false,
        output := none,
        error := some { code := "E501", message := error_msg,
                        retryable := true, details := none },
        metrics := metrics })

/-- `TaskExecutor::submit` (executor/runner.rs:89-134): returns the
submission result, the tracker after the call, and the list of spawned
executions (each spawned execution runs `execute_task` for its assignment
and emits exactly one `TaskResultMessage`). -/
def TaskExecutor.submit (reg : BackendRegistry) (tracker : TaskTracker)
    (assignment : TaskAssignmentMessage) (now : Nat) :
    Except WorkerError Unit × TaskTracker × List TaskAssignmentMessage :=
  if ! tracker.can_accept then
    (.error (.resourceLimit "Maximum concurrent tasks reached"), tracker, [])
  else
    let task_type := assignment.input.task_type
    if ! can_handle_task_type reg task_type then
      (.error (.notSupported "Task type not supported by any loaded backend"),
        tracker, [])
    else
      match tracker.add_task assignment now with
      | (false, tracker') =>
        (.error (.resourceLimit "Failed to add task to tracker"), tracker', [])
      | (true, tracker') => (.ok (), tracker', [assignment])

/-- The `TaskResultMessage`s emitted on `result_tx` for one submission:
one per spawned execution (executor/runner.rs:122-131, 277). -/
def submissionResults (spawned : List TaskAssignmentMessage)
    (tracker : TaskTracker) (worker_id : String) (outcome : ExecOutcome)
    (t1 t2 : Nat) : List TaskResultMessage :=
  spawned.map fun a => (execute_task tracker a worker_id outcome t1 t2).2

/-! ## `coordinator/client.rs`: reconnection backoff

Modelled from the spec: the delay computation itself lives in the external
`backoff` crate — `run_client_loop` (coordinator/client.rs:317-322) only
constructs an `ExponentialBackoff` with `initial_interval =
initial_reconnect_delay` and `max_interval = max_reconnect_delay`, calls
`next_backoff()` before each retry sleep (client.rs:414) and `reset()` on
every successful connection, hence before every successful registration
(client.rs:348). The spec (§4.7 Reconnection) describes the sequence as
"exponential backoff from `initial-reconnect-delay` doubling up to
`max-reconnect-delay`; reset on any successful registration", which is
what the definitions below implement. Delays are in milliseconds. -/

/-- Modelled from the spec: the state of the Session's reconnection
backoff (the `backoff` value of `run_client_loop`, whose implementation
is the external `backoff` crate and is not part of this repository). -/
structure BackoffState where
  initial_delay : Nat
  max_delay : Nat
  current_delay : Nat

/-- Modelled from the spec: the backoff as first constructed
(coordinator/client.rs:317-322). -/
def BackoffState.mk_initial (initial max_d : Nat) : BackoffState :=
  { initial_delay := initial, max_delay := max_d, current_delay := initial }

/-- Modelled from the spec: `next_backoff()` returns the current delay and
doubles it, capped at the maximum. -/
def BackoffState.next_backoff (b : BackoffState) : Nat × BackoffState :=
  (b.current_delay,
    { b with current_delay := min (2 * b.current_delay) b.max_delay })

/-- Modelled from the spec: `reset()`, called on every successful
connection establishment and hence before any successful registration
(coordinator/client.rs:348). -/
def BackoffState.reset (b : BackoffState) : BackoffState :=
  { b with current_delay := b.initial_delay }

/-- The delay sequence `B_n`: the delay used before the n-th consecutive
failed reconnection cycle since the last reset. -/
def backoffSeq (initial max_d : Nat) : Nat → Nat
  | 0 => initial
  | n + 1 => min (2 * backoffSeq initial max_d n) max_d

/-- The backoff state after `n` consecutive `next_backoff()` calls since
construction (one per failed reconnection cycle). -/
def BackoffState.afterFailures (initial max_d : Nat) : Nat → BackoffState
  | 0 => BackoffState.mk_initial initial max_d
  | n + 1 => ((BackoffState.afterFailures initial max_d n).next_backoff).2

/-! ## `peer/mesh.rs`: broadcast over peer write channels -/

/-- The state of one peer's bounded write channel
(`mpsc::Sender<PeerMessage>` with capacity 64, peer/mesh.rs:275). The
generic message type stands for `PeerMessage`; only the channel dynamics
matter for broadcast. -/
structure PeerChannel (μ : Type) where
  capacity : Nat
  queue : List μ
  closed : Bool

/-- Whether the channel currently holds `capacity` messages. -/
def PeerChannel.isFull {μ : Type} (c : PeerChannel μ) : Bool :=
  c.queue.length ≥ c.capacity

/-- `Sender::send(msg).await` on a tokio bounded mpsc channel: the send
fails only when the channel is closed (all receivers dropped); on an open
channel it waits for capacity if necessary and then enqueues the message.
Returns the channel after the send together with whether it failed. -/
def PeerChannel.send {μ : Type} (c : PeerChannel μ) (msg : μ) :
    PeerChannel μ × Bool :=
  if c.closed then (c, true)
  else ({ c with queue := c.queue ++ [msg] }, false)

/-- The connection map of a `PeerMesh` (peer/mesh.rs): peer worker-id to
its write channel. -/
def Connections (μ : Type) := List (String × PeerChannel μ)

/-- `PeerMesh::broadcast` (peer/mesh.rs:350-357): iterate over every
connection and attempt one send on each peer's write channel; a failed
send is logged (`debug!`) and the loop moves on. Returns the connection
states after the loop and the ids of the peers whose send failed. -/
def broadcast {μ : Type} (conns : Connections μ) (msg : μ) :
    Connections μ × List String :=
  match conns with
  | [] => ([], [])
  | (peer_id, c) :: rest =>
    let (c', failed) := c.send msg
    let (rest', failures) := broadcast rest msg
    ((peer_id, c') :: rest', if failed then peer_id :: failures else failures)

/-! ## JSON serialization of the protocol messages

`MessageEnvelope::to_json` / `from_json` (protocol/messages.rs:835-855)
delegate to `serde_json` with the derived `Serialize`/`Deserialize`
instances. The encoders below produce the JSON document `serde_json`
emits (as a `Json` value; the textual printing/parsing layer of
`serde_json` is injective on documents and is not modelled), and the
decoders model the derived deserializers: objects are read by field name,
fields of Rust type `Option<_>` fall back to `None` when absent, fields
with `#[serde(default)]` fall back to their default, internally tagged
enums dispatch on their tag field, and `#[serde(flatten)]` structs read
from the surrounding object. -/

/-- Association-list lookup inside a JSON object (`serde_json::Map` keyed
by field name). -/
def lookupField : List (String × Json) → String → Option Json
  | [], _ => none
  | (k, v) :: rest, key => if k = key then some v else lookupField rest key

def Json.asString : Json → Option String
  | .str s => some s
  | _ => none

def Json.asBool : Json → Option Bool
  | .bool b => some b
  | _ => none

def Json.asRat : Json → Option ℚ
  | .num q => some q
  | _ => none

/-- Decoding an unsigned integer: a JSON number that is a nonnegative
integer. -/
def Json.asNat : Json → Option Nat
  | .num q => if q.den = 1 ∧ 0 ≤ q.num then some q.num.toNat else none
  | _ => none

def Json.asFields : Json → Option (List (String × Json))
  | .obj fs => some fs
  | _ => none

def Json.isNull : Json → Bool
  | .null => true
  | _ => false

/-- Encoding of `Option<T>`: `None` is `null`. -/
def encodeOption {α : Type} (f : α → Json) : Option α → Json
  | some a => f a
  | none => Json.null

/-- Decoding a list (`Vec<T>`) element-wise, failing if any element
fails. -/
def mapMDecode {α : Type} (dec : Json → Option α) : List Json → Option (List α)
  | [] => some []
  | j :: rest =>
    match dec j with
    | some a => (mapMDecode dec rest).map (fun as => a :: as)
    | none => none

def decodeList {α : Type} (dec : Json → Option α) : Json → Option (List α)
  | .arr xs => mapMDecode dec xs
  | _ => none

/-- Read a required field. -/
def getReq {α : Type} (dec : Json → Option α) (fs : List (String × Json))
    (k : String) : Option α :=
  (lookupField fs k).bind dec

/-- Decoding a value of Rust type `Option<T>`: `null` is `None`,
anything else decodes through `dec` into `Some`. -/
def decodeOptVal {α : Type} (dec : Json → Option α) (j : Json) :
    Option (Option α) :=
  if j.isNull then some none else (dec j).map some

/-- Read a field of Rust type `Option<T>`: an absent field is `None`
(serde treats `Option` fields as implicitly defaultable). -/
def getOpt {α : Type} (dec : Json → Option α) (fs : List (String × Json))
    (k : String) : Option (Option α) :=
  match lookupField fs k with
  | none => some none
  | some j => decodeOptVal dec j

/-- Read a field carrying a `#[serde(default)]` fallback. -/
def getDef {α : Type} (dec : Json → Option α) (dflt : α)
    (fs : List (String × Json)) (k : String) : Option α :=
  match lookupField fs k with
  | none => some dflt
  | some j => dec j

def encodeNat (n : Nat) : Json := Json.num (n : ℚ)

def encodeStrList (xs : List String) : Json := Json.arr (xs.map Json.str)

def encodeRatList (xs : List ℚ) : Json := Json.arr (xs.map Json.num)

/-- `(usize, usize)` tuples serialize as two-element arrays. -/
def encodePair (p : Nat × Nat) : Json := Json.arr [encodeNat p.1, encodeNat p.2]

def decodePair : Json → Option (Nat × Nat)
  | .arr [a, b] =>
    match a.asNat, b.asNat with
    | some x, some y => some (x, y)
    | _, _ => none
  | _ => none

/-! ### types/task.rs encoders and decoders -/

/-- The wire names of `TaskType` (SCREAMING_SNAKE_CASE). -/
def TaskType.toWire : TaskType → String
  | .textCompletion => "TEXT_COMPLETION"
  | .embeddings => "EMBEDDINGS"
  | .classification => "CLASSIFICATION"
  | .questionAnswering => "QUESTION_ANSWERING"
  | .summarization => "SUMMARIZATION"
  | .trainingBatch => "TRAINING_BATCH"
  | .validation => "VALIDATION"
  | .webCrawl => "WEB_CRAWL"

def TaskType.toJson (t : TaskType) : Json := Json.str t.toWire

def TaskType.fromJson : Json → Option TaskType
  | .str "TEXT_COMPLETION" => some .textCompletion
  | .str "EMBEDDINGS" => some .embeddings
  | .str "CLASSIFICATION" => some .classification
  | .str "QUESTION_ANSWERING" => some .questionAnswering
  | .str "SUMMARIZATION" => some .summarization
  | .str "TRAINING_BATCH" => some .trainingBatch
  | .str "VALIDATION" => some .validation
  | .str "WEB_CRAWL" => some .webCrawl
  | _ => none

def TokenUsage.toJson (u : TokenUsage) : Json :=
  Json.obj [("prompt_tokens", encodeNat u.prompt_tokens),
            ("completion_tokens", encodeNat u.completion_tokens),
            ("total_tokens", encodeNat u.total_tokens)]

def TokenUsage.fromJson (j : Json) : Option TokenUsage := do
  let fs ← j.asFields
  let prompt_tokens ← getReq Json.asNat fs "prompt_tokens"
  let completion_tokens ← getReq Json.asNat fs "completion_tokens"
  let total_tokens ← getReq Json.asNat fs "total_tokens"
  pure { prompt_tokens, completion_tokens, total_tokens }

/-- The wire names of `FinishReason` (snake_case). -/
def FinishReason.toWire : FinishReason → String
  | .length => "length"
  | .stop => "stop"
  | .contentFilter => "content_filter"
  | .cancelled => "cancelled"
  | .error => "error"

def FinishReason.toJson (r : FinishReason) : Json := Json.str r.toWire

def FinishReason.fromJson : Json → Option FinishReason
  | .str "length" => some .length
  | .str "stop" => some .stop
  | .str "content_filter" => some .contentFilter
  | .str "cancelled" => some .cancelled
  | .str "error" => some .error
  | _ => none

/-- The fields of `GenerationParams`, used flattened into its containers. -/
def GenerationParams.toJsonFields (p : GenerationParams) : List (String × Json) :=
  [("max_tokens", encodeNat p.max_tokens),
   ("temperature", Json.num p.temperature),
   ("top_p", Json.num p.top_p),
   ("top_k", encodeNat p.top_k),
   ("repetition_penalty", Json.num p.repetition_penalty),
   ("stop_sequences", encodeStrList p.stop_sequences),
   ("seed", encodeOption encodeNat p.seed)]

def GenerationParams.fromFields (fs : List (String × Json)) :
    Option GenerationParams := do
  let max_tokens ← getDef Json.asNat 256 fs "max_tokens"
  let temperature ← getDef Json.asRat (7/10) fs "temperature"
  let top_p ← getDef Json.asRat (9/10) fs "top_p"
  let top_k ← getDef Json.asNat 0 fs "top_k"
  let repetition_penalty ← getDef Json.asRat (11/10) fs "repetition_penalty"
  let stop_sequences ← getDef (decodeList Json.asString) [] fs "stop_sequences"
  let seed ← getOpt Json.asNat fs "seed"
  pure { max_tokens, temperature, top_p, top_k, repetition_penalty,
         stop_sequences, seed }

def TextCompletionInput.toJsonFields (i : TextCompletionInput) :
    List (String × Json) :=
  [("prompt", Json.str i.prompt),
   ("system_prompt", encodeOption Json.str i.system_prompt)]
  ++ i.params.toJsonFields

def TextCompletionInput.fromFields (fs : List (String × Json)) :
    Option TextCompletionInput := do
  let prompt ← getReq Json.asString fs "prompt"
  let system_prompt ← getOpt Json.asString fs "system_prompt"
  let params ← GenerationParams.fromFields fs
  pure { prompt, system_prompt, params }

def TextCompletionOutput.toJson (o : TextCompletionOutput) : Json :=
  Json.obj [("text", Json.str o.text),
            ("finish_reason", o.finish_reason.toJson),
            ("usage", o.usage.toJson),
            ("generation_time_ms", encodeNat o.generation_time_ms)]

def TextCompletionOutput.fromJson (j : Json) : Option TextCompletionOutput := do
  let fs ← j.asFields
  let text ← getReq Json.asString fs "text"
  let finish_reason ← getReq FinishReason.fromJson fs "finish_reason"
  let usage ← getReq TokenUsage.fromJson fs "usage"
  let generation_time_ms ← getDef Json.asNat 0 fs "generation_time_ms"
  pure { text, finish_reason, usage, generation_time_ms }

def EmbeddingsInput.toJsonFields (i : EmbeddingsInput) : List (String × Json) :=
  [("texts", encodeStrList i.texts),
   ("normalize", Json.bool i.normalize)]

def EmbeddingsInput.fromFields (fs : List (String × Json)) :
    Option EmbeddingsInput := do
  let texts ← getReq (decodeList Json.asString) fs "texts"
  let normalize ← getDef Json.asBool true fs "normalize"
  pure { texts, normalize }

def EmbeddingsOutput.toJson (o : EmbeddingsOutput) : Json :=
  Json.obj [("embeddings", Json.arr (o.embeddings.map encodeRatList)),
            ("dimensions", encodeNat o.dimensions),
            ("usage", o.usage.toJson)]

def EmbeddingsOutput.fromJson (j : Json) : Option EmbeddingsOutput := do
  let fs ← j.asFields
  let embeddings ← getReq (decodeList (decodeList Json.asRat)) fs "embeddings"
  let dimensions ← getReq Json.asNat fs "dimensions"
  let usage ← getReq TokenUsage.fromJson fs "usage"
  pure { embeddings, dimensions, usage }

def ClassificationInput.toJsonFields (i : ClassificationInput) :
    List (String × Json) :=
  [("text", Json.str i.text),
   ("labels", encodeStrList i.labels),
   ("multi_label", Json.bool i.multi_label)]

def ClassificationInput.fromFields (fs : List (String × Json)) :
    Option ClassificationInput := do
  let text ← getReq Json.asString fs "text"
  let labels ← getReq (decodeList Json.asString) fs "labels"
  let multi_label ← getDef Json.asBool false fs "multi_label"
  pure { text, labels, multi_label }

def ClassificationPrediction.toJson (p : ClassificationPrediction) : Json :=
  Json.obj [("label", Json.str p.label), ("score", Json.num p.score)]

def ClassificationPrediction.fromJson (j : Json) :
    Option ClassificationPrediction := do
  let fs ← j.asFields
  let label ← getReq Json.asString fs "label"
  let score ← getReq Json.asRat fs "score"
  pure { label, score }

def ClassificationOutput.toJson (o : ClassificationOutput) : Json :=
  Json.obj [("predictions", Json.arr (o.predictions.map ClassificationPrediction.toJson)),
            ("usage", o.usage.toJson)]

def ClassificationOutput.fromJson (j : Json) : Option ClassificationOutput := do
  let fs ← j.asFields
  let predictions ← getReq (decodeList ClassificationPrediction.fromJson) fs "predictions"
  let usage ← getReq TokenUsage.fromJson fs "usage"
  pure { predictions, usage }

def QuestionAnsweringInput.toJsonFields (i : QuestionAnsweringInput) :
    List (String × Json) :=
  [("question", Json.str i.question),
   ("context", Json.str i.context)]
  ++ i.params.toJsonFields

def QuestionAnsweringInput.fromFields (fs : List (String × Json)) :
    Option QuestionAnsweringInput := do
  let question ← getReq Json.asString fs "question"
  let context ← getReq Json.asString fs "context"
  let params ← GenerationParams.fromFields fs
  pure { question, context, params }

def QuestionAnsweringOutput.toJson (o : QuestionAnsweringOutput) : Json :=
  Json.obj [("answer", Json.str o.answer),
            ("confidence", encodeOption Json.num o.confidence),
            ("evidence_spans", Json.arr (o.evidence_spans.map encodePair)),
            ("usage", o.usage.toJson)]

def QuestionAnsweringOutput.fromJson (j : Json) :
    Option QuestionAnsweringOutput := do
  let fs ← j.asFields
  let answer ← getReq Json.asString fs "answer"
  let confidence ← getOpt Json.asRat fs "confidence"
  let evidence_spans ← getDef (decodeList decodePair) [] fs "evidence_spans"
  let usage ← getReq TokenUsage.fromJson fs "usage"
  pure { answer, confidence, evidence_spans, usage }

/-- The wire names of `SummarizationStyle` (snake_case). -/
def SummarizationStyle.toWire : SummarizationStyle → String
  | .bullets => "bullets"
  | .paragraph => "paragraph"
  | .tldr => "tldr"

def SummarizationStyle.toJson (s : SummarizationStyle) : Json := Json.str s.toWire

def SummarizationStyle.fromJson : Json → Option SummarizationStyle
  | .str "bullets" => some .bullets
  | .str "paragraph" => some .paragraph
  | .str "tldr" => some .tldr
  | _ => none

def SummarizationInput.toJsonFields (i : SummarizationInput) :
    List (String × Json) :=
  [("text", Json.str i.text),
   ("target_length", encodeNat i.target_length),
   ("style", i.style.toJson)]
  ++ i.params.toJsonFields

def SummarizationInput.fromFields (fs : List (String × Json)) :
    Option SummarizationInput := do
  let text ← getReq Json.asString fs "text"
  let target_length ← getDef Json.asNat 100 fs "target_length"
  let style ← getDef SummarizationStyle.fromJson .paragraph fs "style"
  let params ← GenerationParams.fromFields fs
  pure { text, target_length, style, params }

def SummarizationOutput.toJson (o : SummarizationOutput) : Json :=
  Json.obj [("summary", Json.str o.summary),
            ("compression_ratio", Json.num o.compression_ratio),
            ("usage", o.usage.toJson)]

def SummarizationOutput.fromJson (j : Json) : Option SummarizationOutput := do
  let fs ← j.asFields
  let summary ← getReq Json.asString fs "summary"
  let compression_ratio ← getReq Json.asRat fs "compression_ratio"
  let usage ← getReq TokenUsage.fromJson fs "usage"
  pure { summary, compression_ratio, usage }

def TrainingExample.toJson (e : TrainingExample) : Json :=
  Json.obj [("input", Json.str e.input), ("output", Json.str e.output)]

def TrainingExample.fromJson (j : Json) : Option TrainingExample := do
  let fs ← j.asFields
  let input ← getReq Json.asString fs "input"
  let output ← getReq Json.asString fs "output"
  pure { input, output }

def TrainingBatchInput.toJsonFields (i : TrainingBatchInput) :
    List (String × Json) :=
  [("examples", Json.arr (i.examples.map TrainingExample.toJson)),
   ("lora_rank", encodeNat i.lora_rank),
   ("learning_rate", Json.num i.learning_rate),
   ("epochs", encodeNat i.epochs)]

def TrainingBatchInput.fromFields (fs : List (String × Json)) :
    Option TrainingBatchInput := do
  let examples ← getReq (decodeList TrainingExample.fromJson) fs "examples"
  let lora_rank ← getDef Json.asNat 8 fs "lora_rank"
  let learning_rate ← getDef Json.asRat (1/10000) fs "learning_rate"
  let epochs ← getDef Json.asNat 1 fs "epochs"
  pure { examples, lora_rank, learning_rate, epochs }

def TrainingBatchOutput.toJson (o : TrainingBatchOutput) : Json :=
  Json.obj [("final_loss", Json.num o.final_loss),
            ("loss_history", encodeRatList o.loss_history),
            ("lora_weights", encodeOption Json.str o.lora_weights),
            ("examples_processed", encodeNat o.examples_processed)]

def TrainingBatchOutput.fromJson (j : Json) : Option TrainingBatchOutput := do
  let fs ← j.asFields
  let final_loss ← getReq Json.asRat fs "final_loss"
  let loss_history ← getReq (decodeList Json.asRat) fs "loss_history"
  let lora_weights ← getOpt Json.asString fs "lora_weights"
  let examples_processed ← getReq Json.asNat fs "examples_processed"
  pure { final_loss, loss_history, lora_weights, examples_processed }

/-- `ValidationTask` is internally tagged by `type` with the plain Rust
variant names. -/
def ValidationTask.toJson : ValidationTask → Json
  | .textCompletion i =>
    Json.obj (("type", Json.str "TextCompletion") :: i.toJsonFields)
  | .embeddings i =>
    Json.obj (("type", Json.str "Embeddings") :: i.toJsonFields)

def ValidationTask.fromJson (j : Json) : Option ValidationTask := do
  let fs ← j.asFields
  let tag ← getReq Json.asString fs "type"
  match tag with
  | "TextCompletion" => (TextCompletionInput.fromFields fs).map .textCompletion
  | "Embeddings" => (EmbeddingsInput.fromFields fs).map .embeddings
  | _ => none

def ValidationInput.toJsonFields (i : ValidationInput) : List (String × Json) :=
  [("task", i.task.toJson),
   ("expected_hash", Json.str i.expected_hash)]

def ValidationInput.fromFields (fs : List (String × Json)) :
    Option ValidationInput := do
  let task ← getReq ValidationTask.fromJson fs "task"
  let expected_hash ← getReq Json.asString fs "expected_hash"
  pure { task, expected_hash }

def ValidationOutput.toJson (o : ValidationOutput) : Json :=
  Json.obj [("valid", Json.bool o.valid),
            ("answer_hash", Json.str o.answer_hash),
            ("result", encodeOption id o.result)]

def ValidationOutput.fromJson (j : Json) : Option ValidationOutput := do
  let fs ← j.asFields
  let valid ← getReq Json.asBool fs "valid"
  let answer_hash ← getReq Json.asString fs "answer_hash"
  let result ← getOpt (fun v => some v) fs "result"
  pure { valid, answer_hash, result }

def WebCrawlInput.toJsonFields (i : WebCrawlInput) : List (String × Json) :=
  [("url", Json.str i.url),
   ("max_depth", encodeNat i.max_depth),
   ("max_pages", encodeNat i.max_pages),
   ("generate_embeddings", Json.bool i.generate_embeddings),
   ("allowed_domains", encodeStrList i.allowed_domains)]

def WebCrawlInput.fromFields (fs : List (String × Json)) :
    Option WebCrawlInput := do
  let url ← getReq Json.asString fs "url"
  let max_depth ← getDef Json.asNat 1 fs "max_depth"
  let max_pages ← getDef Json.asNat 50 fs "max_pages"
  let generate_embeddings ← getDef Json.asBool false fs "generate_embeddings"
  let allowed_domains ← getDef (decodeList Json.asString) [] fs "allowed_domains"
  pure { url, max_depth, max_pages, generate_embeddings, allowed_domains }

def CrawledPage.toJson (p : CrawledPage) : Json :=
  Json.obj [("url", Json.str p.url),
            ("title", encodeOption Json.str p.title),
            ("text", Json.str p.text),
            ("embedding", encodeOption encodeRatList p.embedding),
            ("links", encodeStrList p.links),
            ("fetched_at", Json.str p.fetched_at),
            ("content_hash", Json.str p.content_hash)]

def CrawledPage.fromJson (j : Json) : Option CrawledPage := do
  let fs ← j.asFields
  let url ← getReq Json.asString fs "url"
  let title ← getOpt Json.asString fs "title"
  let text ← getReq Json.asString fs "text"
  let embedding ← getOpt (decodeList Json.asRat) fs "embedding"
  let links ← getReq (decodeList Json.asString) fs "links"
  let fetched_at ← getReq Json.asString fs "fetched_at"
  let content_hash ← getReq Json.asString fs "content_hash"
  pure { url, title, text, embedding, links, fetched_at, content_hash }

def WebCrawlOutput.toJson (o : WebCrawlOutput) : Json :=
  Json.obj [("pages", Json.arr (o.pages.map CrawledPage.toJson)),
            ("total_fetched", encodeNat o.total_fetched),
            ("total_text_chars", encodeNat o.total_text_chars),
            ("errors", encodeStrList o.errors)]

def WebCrawlOutput.fromJson (j : Json) : Option WebCrawlOutput := do
  let fs ← j.asFields
  let pages ← getReq (decodeList CrawledPage.fromJson) fs "pages"
  let total_fetched ← getReq Json.asNat fs "total_fetched"
  let total_text_chars ← getReq Json.asNat fs "total_text_chars"
  let errors ← getReq (decodeList Json.asString) fs "errors"
  pure { pages, total_fetched, total_text_chars, errors }

/-- `TaskInput` is internally tagged by `task_type` with explicit
SCREAMING_SNAKE_CASE renames. -/
def TaskInput.toJson : TaskInput → Json
  | .textCompletion i =>
    Json.obj (("task_type", Json.str "TEXT_COMPLETION") :: i.toJsonFields)
  | .embeddings i =>
    Json.obj (("task_type", Json.str "EMBEDDINGS") :: i.toJsonFields)
  | .classification i =>
    Json.obj (("task_type", Json.str "CLASSIFICATION") :: i.toJsonFields)
  | .questionAnswering i =>
    Json.obj (("task_type", Json.str "QUESTION_ANSWERING") :: i.toJsonFields)
  | .summarization i =>
    Json.obj (("task_type", Json.str "SUMMARIZATION") :: i.toJsonFields)
  | .trainingBatch i =>
    Json.obj (("task_type", Json.str "TRAINING_BATCH") :: i.toJsonFields)
  | .validation i =>
    Json.obj (("task_type", Json.str "VALIDATION") :: i.toJsonFields)
  | .webCrawl i =>
    Json.obj (("task_type", Json.str "WEB_CRAWL") :: i.toJsonFields)

def TaskInput.fromJson (j : Json) : Option TaskInput := do
  let fs ← j.asFields
  let tag ← getReq Json.asString fs "task_type"
  match tag with
  | "TEXT_COMPLETION" => (TextCompletionInput.fromFields fs).map .textCompletion
  | "EMBEDDINGS" => (EmbeddingsInput.fromFields fs).map .embeddings
  | "CLASSIFICATION" => (ClassificationInput.fromFields fs).map .classification
  | "QUESTION_ANSWERING" =>
    (QuestionAnsweringInput.fromFields fs).map .questionAnswering
  | "SUMMARIZATION" => (SummarizationInput.fromFields fs).map .summarization
  | "TRAINING_BATCH" => (TrainingBatchInput.fromFields fs).map .trainingBatch
  | "VALIDATION" => (ValidationInput.fromFields fs).map .validation
  | "WEB_CRAWL" => (WebCrawlInput.fromFields fs).map .webCrawl
  | _ => none

def TaskOutput.toJson : TaskOutput → Json
  | .textCompletion o =>
    Json.obj (("task_type", Json.str "TEXT_COMPLETION")
      :: (match o.toJson with | .obj fs => fs | _ => []))
  | .embeddings o =>
    Json.obj (("task_type", Json.str "EMBEDDINGS")
      :: (match o.toJson with | .obj fs => fs | _ => []))
  | .classification o =>
    Json.obj (("task_type", Json.str "CLASSIFICATION")
      :: (match o.toJson with | .obj fs => fs | _ => []))
  | .questionAnswering o =>
    Json.obj (("task_type", Json.str "QUESTION_ANSWERING")
      :: (match o.toJson with | .obj fs => fs | _ => []))
  | .summarization o =>
    Json.obj (("task_type", Json.str "SUMMARIZATION")
      :: (match o.toJson with | .obj fs => fs | _ => []))
  | .trainingBatch o =>
    Json.obj (("task_type", Json.str "TRAINING_BATCH")
      :: (match o.toJson with | .obj fs => fs | _ => []))
  | .validation o =>
    Json.obj (("task_type", Json.str "VALIDATION")
      :: (match o.toJson with | .obj fs => fs | _ => []))
  | .webCrawl o =>
    Json.obj (("task_type", Json.str "WEB_CRAWL")
      :: (match o.toJson with | .obj fs => fs | _ => []))

def TaskOutput.fromJson (j : Json) : Option TaskOutput := do
  let fs ← j.asFields
  let tag ← getReq Json.asString fs "task_type"
  match tag with
  | "TEXT_COMPLETION" => (TextCompletionOutput.fromJson (Json.obj fs)).map .textCompletion
  | "EMBEDDINGS" => (EmbeddingsOutput.fromJson (Json.obj fs)).map .embeddings
  | "CLASSIFICATION" => (ClassificationOutput.fromJson (Json.obj fs)).map .classification
  | "QUESTION_ANSWERING" =>
    (QuestionAnsweringOutput.fromJson (Json.obj fs)).map .questionAnswering
  | "SUMMARIZATION" => (SummarizationOutput.fromJson (Json.obj fs)).map .summarization
  | "TRAINING_BATCH" => (TrainingBatchOutput.fromJson (Json.obj fs)).map .trainingBatch
  | "VALIDATION" => (ValidationOutput.fromJson (Json.obj fs)).map .validation
  | "WEB_CRAWL" => (WebCrawlOutput.fromJson (Json.obj fs)).map .webCrawl
  | _ => none

/-! ### protocol/version.rs and protocol/messages.rs encoders and decoders -/

def ProtocolVersion.toJson (v : ProtocolVersion) : Json :=
  Json.obj [("major", encodeNat v.major),
            ("minor", encodeNat v.minor),
            ("patch", encodeNat v.patch)]

def ProtocolVersion.fromJson (j : Json) : Option ProtocolVersion := do
  let fs ← j.asFields
  let major ← getReq Json.asNat fs "major"
  let minor ← getReq Json.asNat fs "minor"
  let patch ← getReq Json.asNat fs "patch"
  pure { major, minor, patch }

def WorkerCapabilities.toJson (c : WorkerCapabilities) : Json :=
  Json.obj [("supported_tasks", Json.arr (c.supported_tasks.map TaskType.toJson)),
            ("max_concurrent_tasks", encodeNat c.max_concurrent_tasks),
            ("available_memory_mb", encodeNat c.available_memory_mb),
            ("gpu_available", Json.bool c.gpu_available),
            ("gpu_device", encodeOption Json.str c.gpu_device),
            ("gpu_memory_mb", encodeOption encodeNat c.gpu_memory_mb),
            ("max_context_length", encodeNat c.max_context_length),
            ("worker_version", Json.str c.worker_version)]

def WorkerCapabilities.fromJson (j : Json) : Option WorkerCapabilities := do
  let fs ← j.asFields
  let supported_tasks ← getReq (decodeList TaskType.fromJson) fs "supported_tasks"
  let max_concurrent_tasks ← getReq Json.asNat fs "max_concurrent_tasks"
  let available_memory_mb ← getReq Json.asNat fs "available_memory_mb"
  let gpu_available ← getReq Json.asBool fs "gpu_available"
  let gpu_device ← getOpt Json.asString fs "gpu_device"
  let gpu_memory_mb ← getOpt Json.asNat fs "gpu_memory_mb"
  let max_context_length ← getReq Json.asNat fs "max_context_length"
  let worker_version ← getReq Json.asString fs "worker_version"
  pure { supported_tasks, max_concurrent_tasks, available_memory_mb,
         gpu_available, gpu_device, gpu_memory_mb, max_context_length,
         worker_version }

def RegisterRequest.toJsonFields (r : RegisterRequest) : List (String × Json) :=
  [("worker_id", encodeOption Json.str r.worker_id),
   ("name", Json.str r.name),
   ("capabilities", r.capabilities.toJson),
   ("tags", encodeStrList r.tags),
   ("auth_token", encodeOption Json.str r.auth_token)]

def RegisterRequest.fromFields (fs : List (String × Json)) :
    Option RegisterRequest := do
  let worker_id ← getOpt Json.asString fs "worker_id"
  let name ← getReq Json.asString fs "name"
  let capabilities ← getReq WorkerCapabilities.fromJson fs "capabilities"
  let tags ← getDef (decodeList Json.asString) [] fs "tags"
  let auth_token ← getOpt Json.asString fs "auth_token"
  pure { worker_id, name, capabilities, tags, auth_token }

def RegisterAckResponse.toJsonFields (r : RegisterAckResponse) :
    List (String × Json) :=
  [("success", Json.bool r.success),
   ("worker_id", Json.str r.worker_id),
   ("session_token", encodeOption Json.str r.session_token),
   ("heartbeat_interval_secs", encodeNat r.heartbeat_interval_secs),
   ("coordinator_version", r.coordinator_version.toJson),
   ("error", encodeOption Json.str r.error)]

def RegisterAckResponse.fromFields (fs : List (String × Json)) :
    Option RegisterAckResponse := do
  let success ← getReq Json.asBool fs "success"
  let worker_id ← getReq Json.asString fs "worker_id"
  let session_token ← getOpt Json.asString fs "session_token"
  let heartbeat_interval_secs ← getReq Json.asNat fs "heartbeat_interval_secs"
  let coordinator_version ← getReq ProtocolVersion.fromJson fs "coordinator_version"
  let error ← getOpt Json.asString fs "error"
  pure { success, worker_id, session_token, heartbeat_interval_secs,
         coordinator_version, error }

def ResourceUsageReport.toJson (r : ResourceUsageReport) : Json :=
  Json.obj [("cpu_percent", Json.num r.cpu_percent),
            ("memory_used_mb", encodeNat r.memory_used_mb),
            ("memory_available_mb", encodeNat r.memory_available_mb),
            ("gpu_percent", encodeOption Json.num r.gpu_percent),
            ("gpu_memory_used_mb", encodeOption encodeNat r.gpu_memory_used_mb),
            ("active_threads", encodeNat r.active_threads)]

def ResourceUsageReport.fromJson (j : Json) : Option ResourceUsageReport := do
  let fs ← j.asFields
  let cpu_percent ← getReq Json.asRat fs "cpu_percent"
  let memory_used_mb ← getReq Json.asNat fs "memory_used_mb"
  let memory_available_mb ← getReq Json.asNat fs "memory_available_mb"
  let gpu_percent ← getOpt Json.asRat fs "gpu_percent"
  let gpu_memory_used_mb ← getOpt Json.asNat fs "gpu_memory_used_mb"
  let active_threads ← getReq Json.asNat fs "active_threads"
  pure { cpu_percent, memory_used_mb, memory_available_mb, gpu_percent,
         gpu_memory_used_mb, active_threads }

/-- The wire names of `WorkerStatus` (SCREAMING_SNAKE_CASE). -/
def WorkerStatus.toWire : WorkerStatus → String
  | .ready => "READY"
  | .busy => "BUSY"
  | .paused => "PAUSED"
  | .draining => "DRAINING"
  | .error => "ERROR"

def WorkerStatus.toJson (s : WorkerStatus) : Json := Json.str s.toWire

def WorkerStatus.fromJson : Json → Option WorkerStatus
  | .str "READY" => some .ready
  | .str "BUSY" => some .busy
  | .str "PAUSED" => some .paused
  | .str "DRAINING" => some .draining
  | .str "ERROR" => some .error
  | _ => none

def HeartbeatRequest.toJsonFields (h : HeartbeatRequest) : List (String × Json) :=
  [("worker_id", Json.str h.worker_id),
   ("status", h.status.toJson),
   ("resources", h.resources.toJson),
   ("active_tasks", encodeStrList h.active_tasks),
   ("completed_task_count", encodeNat h.completed_task_count),
   ("uptime_secs", encodeNat h.uptime_secs)]

def HeartbeatRequest.fromFields (fs : List (String × Json)) :
    Option HeartbeatRequest := do
  let worker_id ← getReq Json.asString fs "worker_id"
  let status ← getReq WorkerStatus.fromJson fs "status"
  let resources ← getReq ResourceUsageReport.fromJson fs "resources"
  let active_tasks ← getReq (decodeList Json.asString) fs "active_tasks"
  let completed_task_count ← getDef Json.asNat 0 fs "completed_task_count"
  let uptime_secs ← getReq Json.asNat fs "uptime_secs"
  pure { worker_id, status, resources, active_tasks, completed_task_count,
         uptime_secs }

/-- `PendingAction` is internally tagged by `action`,
SCREAMING_SNAKE_CASE. -/
def PendingAction.toJson : PendingAction → Json
  | .cancelTask task_id =>
    Json.obj [("action", Json.str "CANCEL_TASK"), ("task_id", Json.str task_id)]
  | .pause => Json.obj [("action", Json.str "PAUSE")]
  | .resume => Json.obj [("action", Json.str "RESUME")]
  | .updateConfig config =>
    Json.obj [("action", Json.str "UPDATE_CONFIG"), ("config", config)]
  | .shutdown reason =>
    Json.obj [("action", Json.str "SHUTDOWN"), ("reason", Json.str reason)]

def PendingAction.fromJson (j : Json) : Option PendingAction := do
  let fs ← j.asFields
  let tag ← getReq Json.asString fs "action"
  match tag with
  | "CANCEL_TASK" => (getReq Json.asString fs "task_id").map .cancelTask
  | "PAUSE" => some .pause
  | "RESUME" => some .resume
  | "UPDATE_CONFIG" => (getReq (fun v => some v) fs "config").map .updateConfig
  | "SHUTDOWN" => (getReq Json.asString fs "reason").map .shutdown
  | _ => none

def HeartbeatAckResponse.toJsonFields (h : HeartbeatAckResponse) :
    List (String × Json) :=
  [("accepted", Json.bool h.accepted),
   ("next_heartbeat", Json.str h.next_heartbeat),
   ("pending_actions", Json.arr (h.pending_actions.map PendingAction.toJson))]

def HeartbeatAckResponse.fromFields (fs : List (String × Json)) :
    Option HeartbeatAckResponse := do
  let accepted ← getReq Json.asBool fs "accepted"
  let next_heartbeat ← getReq Json.asString fs "next_heartbeat"
  let pending_actions ← getDef (decodeList PendingAction.fromJson) [] fs
    "pending_actions"
  pure { accepted, next_heartbeat, pending_actions }

/-- The wire names of `TaskPriority` (SCREAMING_SNAKE_CASE). -/
def TaskPriority.toWire : TaskPriority → String
  | .low => "LOW"
  | .normal => "NORMAL"
  | .high => "HIGH"
  | .critical => "CRITICAL"

def TaskPriority.toJson (p : TaskPriority) : Json := Json.str p.toWire

def TaskPriority.fromJson : Json → Option TaskPriority
  | .str "LOW" => some .low
  | .str "NORMAL" => some .normal
  | .str "HIGH" => some .high
  | .str "CRITICAL" => some .critical
  | _ => none

def TaskAssignmentMessage.toJsonFields (t : TaskAssignmentMessage) :
    List (String × Json) :=
  [("task_id", Json.str t.task_id),
   ("block_id", encodeOption Json.str t.block_id),
   ("day_id", encodeOption Json.str t.day_id),
   ("priority", t.priority.toJson),
   ("deadline", encodeOption Json.str t.deadline),
   ("model_id", Json.str t.model_id),
   ("input", t.input.toJson),
   ("is_canary", Json.bool t.is_canary),
   ("expected_hash", encodeOption Json.str t.expected_hash),
   ("timeout_secs", encodeNat t.timeout_secs)]

def TaskAssignmentMessage.fromFields (fs : List (String × Json)) :
    Option TaskAssignmentMessage := do
  let task_id ← getReq Json.asString fs "task_id"
  let block_id ← getOpt Json.asString fs "block_id"
  let day_id ← getOpt Json.asString fs "day_id"
  let priority ← getDef TaskPriority.fromJson .normal fs "priority"
  let deadline ← getOpt Json.asString fs "deadline"
  let model_id ← getReq Json.asString fs "model_id"
  let input ← getReq TaskInput.fromJson fs "input"
  let is_canary ← getDef Json.asBool false fs "is_canary"
  let expected_hash ← getOpt Json.asString fs "expected_hash"
  let timeout_secs ← getDef Json.asNat 300 fs "timeout_secs"
  pure { task_id, block_id, day_id, priority, deadline, model_id, input,
         is_canary, expected_hash, timeout_secs }

def TaskError.toJson (e : TaskError) : Json :=
  Json.obj [("code", Json.str e.code),
            ("message", Json.str e.message),
            ("retryable", Json.bool e.retryable),
            ("details", encodeOption id e.details)]

def TaskError.fromJson (j : Json) : Option TaskError := do
  let fs ← j.asFields
  let code ← getReq Json.asString fs "code"
  let message ← getReq Json.asString fs "message"
  let retryable ← getReq Json.asBool fs "retryable"
  let details ← getOpt (fun v => some v) fs "details"
  pure { code, message, retryable, details }

def TaskMetrics.toJson (m : TaskMetrics) : Json :=
  Json.obj [("queue_time_ms", encodeNat m.queue_time_ms),
            ("execution_time_ms", encodeNat m.execution_time_ms),
            ("total_time_ms", encodeNat m.total_time_ms),
            ("tokens_processed", encodeOption encodeNat m.tokens_processed),
            ("tokens_per_second", encodeOption Json.num m.tokens_per_second),
            ("peak_memory_mb", encodeOption encodeNat m.peak_memory_mb),
            ("peak_gpu_memory_mb", encodeOption encodeNat m.peak_gpu_memory_mb)]

def TaskMetrics.fromJson (j : Json) : Option TaskMetrics := do
  let fs ← j.asFields
  let queue_time_ms ← getReq Json.asNat fs "queue_time_ms"
  let execution_time_ms ← getReq Json.asNat fs "execution_time_ms"
  let total_time_ms ← getReq Json.asNat fs "total_time_ms"
  let tokens_processed ← getOpt Json.asNat fs "tokens_processed"
  let tokens_per_second ← getOpt Json.asRat fs "tokens_per_second"
  let peak_memory_mb ← getOpt Json.asNat fs "peak_memory_mb"
  let peak_gpu_memory_mb ← getOpt Json.asNat fs "peak_gpu_memory_mb"
  pure { queue_time_ms, execution_time_ms, total_time_ms, tokens_processed,
         tokens_per_second, peak_memory_mb, peak_gpu_memory_mb }

def TaskResultMessage.toJsonFields (r : TaskResultMessage) :
    List (String × Json) :=
  [("task_id", Json.str r.task_id),
   ("worker_id", Json.str r.worker_id),
   ("success", Json.bool r.success),
   ("output", encodeOption TaskOutput.toJson r.output),
   ("error", encodeOption TaskError.toJson r.error),
   ("metrics", r.metrics.toJson)]

def TaskResultMessage.fromFields (fs : List (String × Json)) :
    Option TaskResultMessage := do
  let task_id ← getReq Json.asString fs "task_id"
  let worker_id ← getReq Json.asString fs "worker_id"
  let success ← getReq Json.asBool fs "success"
  let output ← getOpt TaskOutput.fromJson fs "output"
  let error ← getOpt TaskError.fromJson fs "error"
  let metrics ← getReq TaskMetrics.fromJson fs "metrics"
  pure { task_id, worker_id, success, output, error, metrics }

def TaskCancelMessage.toJsonFields (c : TaskCancelMessage) :
    List (String × Json) :=
  [("task_id", Json.str c.task_id),
   ("reason", Json.str c.reason),
   ("force", Json.bool c.force)]

def TaskCancelMessage.fromFields (fs : List (String × Json)) :
    Option TaskCancelMessage := do
  let task_id ← getReq Json.asString fs "task_id"
  let reason ← getReq Json.asString fs "reason"
  let force ← getDef Json.asBool false fs "force"
  pure { task_id, reason, force }

def StatusUpdateMessage.toJsonFields (s : StatusUpdateMessage) :
    List (String × Json) :=
  [("worker_id", Json.str s.worker_id),
   ("status", s.status.toJson),
   ("reason", encodeOption Json.str s.reason)]

def StatusUpdateMessage.fromFields (fs : List (String × Json)) :
    Option StatusUpdateMessage := do
  let worker_id ← getReq Json.asString fs "worker_id"
  let status ← getReq WorkerStatus.fromJson fs "status"
  let reason ← getOpt Json.asString fs "reason"
  pure { worker_id, status, reason }

def ConfigUpdateMessage.toJsonFields (c : ConfigUpdateMessage) :
    List (String × Json) :=
  [("config", c.config),
   ("persist", Json.bool c.persist)]

def ConfigUpdateMessage.fromFields (fs : List (String × Json)) :
    Option ConfigUpdateMessage := do
  let config ← getReq (fun v => some v) fs "config"
  let persist ← getDef Json.asBool false fs "persist"
  pure { config, persist }

def ShutdownMessage.toJsonFields (s : ShutdownMessage) : List (String × Json) :=
  [("worker_id", Json.str s.worker_id),
   ("reason", Json.str s.reason),
   ("graceful", Json.bool s.graceful),
   ("abandoned_tasks", encodeStrList s.abandoned_tasks)]

def ShutdownMessage.fromFields (fs : List (String × Json)) :
    Option ShutdownMessage := do
  let worker_id ← getReq Json.asString fs "worker_id"
  let reason ← getReq Json.asString fs "reason"
  let graceful ← getReq Json.asBool fs "graceful"
  let abandoned_tasks ← getDef (decodeList Json.asString) [] fs "abandoned_tasks"
  pure { worker_id, reason, graceful, abandoned_tasks }

def ErrorMessage.toJsonFields (e : ErrorMessage) : List (String × Json) :=
  [("code", Json.str e.code),
   ("message", Json.str e.message),
   ("related_message_id", encodeOption Json.str e.related_message_id),
   ("fatal", Json.bool e.fatal)]

def ErrorMessage.fromFields (fs : List (String × Json)) : Option ErrorMessage := do
  let code ← getReq Json.asString fs "code"
  let message ← getReq Json.asString fs "message"
  let related_message_id ← getOpt Json.asString fs "related_message_id"
  let fatal ← getDef Json.asBool false fs "fatal"
  pure { code, message, related_message_id, fatal }

def PeerDiscoverMessage.toJsonFields (p : PeerDiscoverMessage) :
    List (String × Json) :=
  [("worker_id", Json.str p.worker_id),
   ("listen_addr", Json.str p.listen_addr),
   ("capabilities", p.capabilities.toJson)]

def PeerDiscoverMessage.fromFields (fs : List (String × Json)) :
    Option PeerDiscoverMessage := do
  let worker_id ← getReq Json.asString fs "worker_id"
  let listen_addr ← getReq Json.asString fs "listen_addr"
  let capabilities ← getReq WorkerCapabilities.fromJson fs "capabilities"
  pure { worker_id, listen_addr, capabilities }

def PeerDirectoryEntry.toJson (p : PeerDirectoryEntry) : Json :=
  Json.obj [("worker_id", Json.str p.worker_id),
            ("name", Json.str p.name),
            ("listen_addr", Json.str p.listen_addr),
            ("capabilities", p.capabilities.toJson),
            ("status", p.status.toJson)]

def PeerDirectoryEntry.fromJson (j : Json) : Option PeerDirectoryEntry := do
  let fs ← j.asFields
  let worker_id ← getReq Json.asString fs "worker_id"
  let name ← getReq Json.asString fs "name"
  let listen_addr ← getReq Json.asString fs "listen_addr"
  let capabilities ← getReq WorkerCapabilities.fromJson fs "capabilities"
  let status ← getReq WorkerStatus.fromJson fs "status"
  pure { worker_id, name, listen_addr, capabilities, status }

def PeerDirectoryMessage.toJsonFields (p : PeerDirectoryMessage) :
    List (String × Json) :=
  [("peers", Json.arr (p.peers.map PeerDirectoryEntry.toJson))]

def PeerDirectoryMessage.fromFields (fs : List (String × Json)) :
    Option PeerDirectoryMessage := do
  let peers ← getReq (decodeList PeerDirectoryEntry.fromJson) fs "peers"
  pure { peers }

/-- `GroupPurposeMessage` is internally tagged by `type`,
SCREAMING_SNAKE_CASE. -/
def GroupPurposeMessage.toJson : GroupPurposeMessage → Json
  | .modelShard model_id total_shards =>
    Json.obj [("type", Json.str "MODEL_SHARD"),
              ("model_id", Json.str model_id),
              ("total_shards", encodeNat total_shards)]
  | .taskPipeline pipeline_id stages =>
    Json.obj [("type", Json.str "TASK_PIPELINE"),
              ("pipeline_id", Json.str pipeline_id),
              ("stages", Json.arr (stages.map TaskType.toJson))]
  | .general => Json.obj [("type", Json.str "GENERAL")]

def GroupPurposeMessage.fromJson (j : Json) : Option GroupPurposeMessage := do
  let fs ← j.asFields
  let tag ← getReq Json.asString fs "type"
  match tag with
  | "MODEL_SHARD" => do
    let model_id ← getReq Json.asString fs "model_id"
    let total_shards ← getReq Json.asNat fs "total_shards"
    pure (.modelShard model_id total_shards)
  | "TASK_PIPELINE" => do
    let pipeline_id ← getReq Json.asString fs "pipeline_id"
    let stages ← getReq (decodeList TaskType.fromJson) fs "stages"
    pure (.taskPipeline pipeline_id stages)
  | "GENERAL" => some .general
  | _ => none

def GroupMemberMessage.toJson (m : GroupMemberMessage) : Json :=
  Json.obj [("worker_id", Json.str m.worker_id),
            ("role", Json.str m.role),
            ("shard_index", encodeOption encodeNat m.shard_index),
            ("pipeline_stage", encodeOption encodeNat m.pipeline_stage)]

def GroupMemberMessage.fromJson (j : Json) : Option GroupMemberMessage := do
  let fs ← j.asFields
  let worker_id ← getReq Json.asString fs "worker_id"
  let role ← getReq Json.asString fs "role"
  let shard_index ← getOpt Json.asNat fs "shard_index"
  let pipeline_stage ← getOpt Json.asNat fs "pipeline_stage"
  pure { worker_id, role, shard_index, pipeline_stage }

def GroupAssignedMessage.toJsonFields (g : GroupAssignedMessage) :
    List (String × Json) :=
  [("group_id", Json.str g.group_id),
   ("purpose", g.purpose.toJson),
   ("members", Json.arr (g.members.map GroupMemberMessage.toJson))]

def GroupAssignedMessage.fromFields (fs : List (String × Json)) :
    Option GroupAssignedMessage := do
  let group_id ← getReq Json.asString fs "group_id"
  let purpose ← getReq GroupPurposeMessage.fromJson fs "purpose"
  let members ← getReq (decodeList GroupMemberMessage.fromJson) fs "members"
  pure { group_id, purpose, members }

def GroupUpdateMessage.toJsonFields (g : GroupUpdateMessage) :
    List (String × Json) :=
  [("group_id", Json.str g.group_id),
   ("members", Json.arr (g.members.map GroupMemberMessage.toJson)),
   ("disbanded", Json.bool g.disbanded)]

def GroupUpdateMessage.fromFields (fs : List (String × Json)) :
    Option GroupUpdateMessage := do
  let group_id ← getReq Json.asString fs "group_id"
  let members ← getReq (decodeList GroupMemberMessage.fromJson) fs "members"
  let disbanded ← getDef Json.asBool false fs "disbanded"
  pure { group_id, members, disbanded }

/-- The `Message` payload as the flattened tagged fields serde emits:
the `type` tag first, then the variant struct's fields in declaration
order. -/
def Message.toJsonFields : Message → List (String × Json)
  | .register r => ("type", Json.str "REGISTER") :: r.toJsonFields
  | .heartbeat h => ("type", Json.str "HEARTBEAT") :: h.toJsonFields
  | .taskResult r => ("type", Json.str "TASK_RESULT") :: r.toJsonFields
  | .statusUpdate s => ("type", Json.str "STATUS_UPDATE") :: s.toJsonFields
  | .shutdown s => ("type", Json.str "SHUTDOWN") :: s.toJsonFields
  | .registerAck a => ("type", Json.str "REGISTER_ACK") :: a.toJsonFields
  | .heartbeatAck a => ("type", Json.str "HEARTBEAT_ACK") :: a.toJsonFields
  | .taskAssignment t => ("type", Json.str "TASK_ASSIGNMENT") :: t.toJsonFields
  | .taskCancel c => ("type", Json.str "TASK_CANCEL") :: c.toJsonFields
  | .configUpdate c => ("type", Json.str "CONFIG_UPDATE") :: c.toJsonFields
  | .error e => ("type", Json.str "ERROR") :: e.toJsonFields
  | .peerDiscover p => ("type", Json.str "PEER_DISCOVER") :: p.toJsonFields
  | .peerDirectory p => ("type", Json.str "PEER_DIRECTORY") :: p.toJsonFields
  | .groupAssigned g => ("type", Json.str "GROUP_ASSIGNED") :: g.toJsonFields
  | .groupUpdate g => ("type", Json.str "GROUP_UPDATE") :: g.toJsonFields

/-- Decoding the tagged `Message` payload from the flattened envelope
fields: dispatch on the `type` tag. -/
def Message.fromFields (fs : List (String × Json)) : Option Message := do
  let tag ← getReq Json.asString fs "type"
  match tag with
  | "REGISTER" => (RegisterRequest.fromFields fs).map .register
  | "HEARTBEAT" => (HeartbeatRequest.fromFields fs).map .heartbeat
  | "TASK_RESULT" => (TaskResultMessage.fromFields fs).map .taskResult
  | "STATUS_UPDATE" => (StatusUpdateMessage.fromFields fs).map .statusUpdate
  | "SHUTDOWN" => (ShutdownMessage.fromFields fs).map .shutdown
  | "REGISTER_ACK" => (RegisterAckResponse.fromFields fs).map .registerAck
  | "HEARTBEAT_ACK" => (HeartbeatAckResponse.fromFields fs).map .heartbeatAck
  | "TASK_ASSIGNMENT" => (TaskAssignmentMessage.fromFields fs).map .taskAssignment
  | "TASK_CANCEL" => (TaskCancelMessage.fromFields fs).map .taskCancel
  | "CONFIG_UPDATE" => (ConfigUpdateMessage.fromFields fs).map .configUpdate
  | "ERROR" => (ErrorMessage.fromFields fs).map .error
  | "PEER_DISCOVER" => (PeerDiscoverMessage.fromFields fs).map .peerDiscover
  | "PEER_DIRECTORY" => (PeerDirectoryMessage.fromFields fs).map .peerDirectory
  | "GROUP_ASSIGNED" => (GroupAssignedMessage.fromFields fs).map .groupAssigned
  | "GROUP_UPDATE" => (GroupUpdateMessage.fromFields fs).map .groupUpdate
  | _ => none

/-- `MessageEnvelope::to_json` (protocol/messages.rs:837): envelope
metadata followed by the `#[serde(flatten)]`ed tagged payload. -/
def MessageEnvelope.to_json (env : MessageEnvelope) : Json :=
  Json.obj ([("id", Json.str env.id),
             ("timestamp", Json.str env.timestamp),
             ("version", env.version.toJson)]
            ++ env.payload.toJsonFields)

/-- `MessageEnvelope::from_json` (protocol/messages.rs:847). -/
def MessageEnvelope.from_json (j : Json) : Option MessageEnvelope := do
  let fs ← j.asFields
  let id ← getReq Json.asString fs "id"
  let timestamp ← getReq Json.asString fs "timestamp"
  let version ← getReq ProtocolVersion.fromJson fs "version"
  let payload ← Message.fromFields fs
  pure { id, timestamp, version, payload }

/-- A raw-JSON `Option` field survives the round trip only when it is not
`Some(null)`: serde serializes `Some(Value::Null)` as `null` and reads it
back as `None`. -/
def optValueWF : Option Json → Bool
  | some j => ! j.isNull
  | none => true

/-- Round-trip validity of a `TaskOutput`: its `ValidationOutput.result`
raw field must not be `Some(null)`. -/
def TaskOutput.wf : TaskOutput → Bool
  | .validation o => optValueWF o.result
  | _ => true

/-- Round-trip validity of a `Message`: the only lossy values are
`Some(Value::Null)` in the raw-JSON option fields `TaskError.details` and
`ValidationOutput.result`, both reachable only through `TASK_RESULT`. -/
def Message.wf : Message → Bool
  | .taskResult r =>
    (match r.error with
     | some e => optValueWF e.details
     | none => true)
    && (match r.output with
        | some o => o.wf
        | none => true)
  | _ => true

/-! ## Concrete fixtures for the closed examples -/

/-- A minimal concrete task input (the `make_test_assignment` fixture of
the executor/state.rs tests uses the same shape). -/
def sampleInput : TaskInput :=
  .textCompletion { prompt := "Test", system_prompt := none,
                    params := GenerationParams.default }

/-- A concrete assignment with the given task id, mirroring
`make_test_assignment` (executor/state.rs tests). -/
def sampleAssignment (id : String) : TaskAssignmentMessage :=
  { task_id := id, block_id := none, day_id := none, priority := .normal,
    deadline := none, model_id := "test-model", input := sampleInput,
    is_canary := false, expected_hash := none, timeout_secs := 60 }

/-- A tracker with capacity 2 holding one Queued task with id `t`. -/
def dupTracker : TaskTracker :=
  TaskTracker.runOps (TaskTracker.new 2) [.add (sampleAssignment "t") 0]

/-- A tracker with capacity 1 whose single task `a` has completed. -/
def termTracker : TaskTracker :=
  TaskTracker.runOps (TaskTracker.new 1)
    [.add (sampleAssignment "a") 0, .markRunning "a" 1, .markCompleted "a" 2]

/-- The `ActiveTask` stored in `termTracker` under id `a`. -/
def termTask : ActiveTask :=
  ((ActiveTask.new (sampleAssignment "a") 0).mark_running 1).mark_completed 2

/-- A tracker with capacity 2 holding a Queued task `a` and a Completed
task `b`. -/
def mixedTracker : TaskTracker :=
  TaskTracker.runOps (TaskTracker.new 2)
    [.add (sampleAssignment "a") 0, .add (sampleAssignment "b") 1,
     .markRunning "b" 2, .markCompleted "b" 3]

/-- The `ActiveTask` stored in `mixedTracker` under id `a`. -/
def mixedTaskA : ActiveTask := ActiveTask.new (sampleAssignment "a") 0

/-- A registry holding only a mock backend that supports text completion
(the shape of `test_registry_best_backend_for_task`, backend/registry.rs). -/
def mockOnlyRegistry : BackendRegistry :=
  fun bt => match bt with
  | .mock => some [.textCompletion]
  | _ => none

/-- The empty registry (`BackendRegistry::new`). -/
def emptyRegistry : BackendRegistry := fun _ => none

/-- A peer channel that is full (capacity 1, one message queued) but still
open; message payloads are numbered for concreteness. -/
def fullOpenChannel : PeerChannel Nat :=
  { capacity := 1, queue := [0], closed := false }

/-- An envelope whose payload is a TASK_RESULT carrying
`error.details = Some(Value::Null)` - the lossy case of the serde
round-trip. -/
def nullDetailsError : TaskError :=
  { code := "E500", message := "boom", retryable := false,
    details := some Json.null }

def nullDetailsResult : TaskResultMessage :=
  { task_id := "t", worker_id := "w", success := false, output := none,
    error := some nullDetailsError, metrics := TaskMetrics.default }

def nullDetailsEnvelope : MessageEnvelope :=
  { id := "00000000-0000-0000-0000-000000000000",
    timestamp := "2026-01-01T00:00:00Z",
    version := PROTOCOL_VERSION,
    payload := .taskResult nullDetailsResult }

/-- What `nullDetailsEnvelope` decodes back to: identical except that
`details` has become `None`. -/
def nullDetailsEnvelopeDecoded : MessageEnvelope :=
  { nullDetailsEnvelope with
    payload := .taskResult
      { nullDetailsResult with
        error := some { nullDetailsError with details := none } } }

/-- A small, wellformed envelope used as the concrete round-trip
witness. -/
def sampleEnvelope : MessageEnvelope :=
  { id := "123e4567-e89b-12d3-a456-426614174000",
    timestamp := "2026-01-30T12:00:00Z",
    version := PROTOCOL_VERSION,
    payload := .taskCancel { task_id := "t1", reason := "requeued", force := false } }

/-! ## Helper lemmas -/

theorem TaskState.isActive_eq_not_isTerminal (s : TaskState) :
    s.isActive = ! s.isTerminal := by
  cases s <;> rfl

theorem TaskTable.countP_insert_le (l : TaskTable) (id : String) (t : ActiveTask)
    (p : String × ActiveTask → Bool) :
    (l.insert id t).countP p ≤ l.countP p + 1 := by
  induction l with
  | nil =>
    simp only [TaskTable.insert, List.countP_cons, List.countP_nil]
    split <;> omega
  | cons e rest ih =>
    obtain ⟨k, v⟩ := e
    by_cases h : k = id
    · subst h
      rw [show TaskTable.insert ((k, v) :: rest) k t = (k, t) :: rest from by
        rw [TaskTable.insert]; simp]
      simp only [List.countP_cons]
      split <;> split <;> omega
    · rw [show TaskTable.insert ((k, v) :: rest) id t
          = (k, v) :: TaskTable.insert rest id t from by
        rw [TaskTable.insert]; simp [h]]
      simp only [List.countP_cons]
      split <;> omega

theorem TaskTable.countP_modify_le (l : TaskTable) (id : String)
    (f : ActiveTask → ActiveTask) (p : String × ActiveTask → Bool)
    (h : ∀ k v, l.lookup id = some v → p (k, f v) = true → p (k, v) = true) :
    (l.modify id f).countP p ≤ l.countP p := by
  induction l with
  | nil => simp [TaskTable.modify]
  | cons e rest ih =>
    obtain ⟨k, v⟩ := e
    by_cases hk : k = id
    · have hv : p (k, f v) = true → p (k, v) = true :=
        h k v (by rw [TaskTable.lookup]; simp [hk])
      rw [show TaskTable.modify ((k, v) :: rest) id f = (k, f v) :: rest from by
        rw [TaskTable.modify]; simp [hk]]
      simp only [List.countP_cons]
      by_cases hp : p (k, f v) = true
      · simp [hp, hv hp]
      · rw [if_neg hp]
        split <;> omega
    · have ih' := ih fun k0 w hw => h k0 w (by rw [TaskTable.lookup]; simp [hk]; exact hw)
      rw [show TaskTable.modify ((k, v) :: rest) id f
          = (k, v) :: TaskTable.modify rest id f from by
        rw [TaskTable.modify]; simp [hk]]
      simp only [List.countP_cons]
      omega

theorem TaskTable.countP_filter_le (l : TaskTable) (q : String × ActiveTask → Bool)
    (p : String × ActiveTask → Bool) :
    (l.filter q).countP p ≤ l.countP p := by
  rw [List.countP_filter]
  exact List.countP_mono_left fun a _ h => ((Bool.and_eq_true _ _).mp h).1

theorem TaskTracker.applyOp_max_concurrent (t : TaskTracker) (op : TrackerOp) :
    (t.applyOp op).max_concurrent = t.max_concurrent := by
  cases op <;>
    simp only [TaskTracker.applyOp, TaskTracker.add_task, TaskTracker.mark_running,
      TaskTracker.mark_completed, TaskTracker.mark_failed, TaskTracker.cancel_task,
      TaskTracker.cleanup_old_tasks] <;>
    (repeat' split) <;> rfl

theorem TaskTracker.applyOp_activeCount_le (t : TaskTracker) (op : TrackerOp)
    (hg : op.guardOK t = true) (hinv : t.activeCount ≤ t.max_concurrent) :
    (t.applyOp op).activeCount ≤ t.max_concurrent := by
  cases op with
  | add a now =>
    simp only [TaskTracker.applyOp, TaskTracker.add_task]
    split
    next => exact hinv
    next hlt =>
      have hle := TaskTable.countP_insert_le t.tasks a.task_id (ActiveTask.new a now)
        (fun e => e.2.state.isActive)
      simp only [TaskTracker.activeCount] at hinv hlt hle ⊢
      omega
  | markRunning id now =>
    simp only [TaskTracker.applyOp, TaskTracker.mark_running]
    cases hl : t.tasks.lookup id with
    | none => exact hinv
    | some task =>
      simp only [TaskTracker.activeCount] at hinv ⊢
      refine le_trans (TaskTable.countP_modify_le t.tasks id _ _ ?_) hinv
      intro k v hv hp
      rw [hl, Option.some_inj] at hv
      subst hv
      simp only [TrackerOp.guardOK, hl] at hg
      show task.state.isActive = true
      rw [TaskState.isActive_eq_not_isTerminal]
      exact hg
  | markCompleted id now =>
    simp only [TaskTracker.applyOp, TaskTracker.mark_completed]
    cases hl : t.tasks.lookup id with
    | none => exact hinv
    | some task =>
      simp only [TaskTracker.activeCount] at hinv ⊢
      refine le_trans (TaskTable.countP_modify_le t.tasks id _ _ ?_) hinv
      intro k v _ hp
      exact absurd hp (by simp [ActiveTask.mark_completed, TaskState.isActive])
  | markFailed id err now =>
    simp only [TaskTracker.applyOp, TaskTracker.mark_failed]
    cases hl : t.tasks.lookup id with
    | none => exact hinv
    | some task =>
      simp only [TaskTracker.activeCount] at hinv ⊢
      refine le_trans (TaskTable.countP_modify_le t.tasks id _ _ ?_) hinv
      intro k v _ hp
      exact absurd hp (by simp [ActiveTask.mark_failed, TaskState.isActive])
  | cancel id now =>
    simp only [TaskTracker.applyOp, TaskTracker.cancel_task]
    cases hl : t.tasks.lookup id with
    | none => exact hinv
    | some task =>
      dsimp only
      split
      next =>
        simp only [TaskTracker.activeCount] at hinv ⊢
        refine le_trans (TaskTable.countP_modify_le t.tasks id _ _ ?_) hinv
        intro k v _ hp
        exact absurd hp (by simp [ActiveTask.mark_cancelled, TaskState.isActive])
      next => exact hinv
  | cleanup keep =>
    simp only [TaskTracker.applyOp, TaskTracker.cleanup_old_tasks,
      TaskTracker.activeCount] at hinv ⊢
    exact le_trans (TaskTable.countP_filter_le _ _ _) hinv

theorem TaskTracker.runOps_activeCount_le (ops : List TrackerOp) (t : TaskTracker)
    (hg : t.guardedOps ops = true) (hinv : t.activeCount ≤ t.max_concurrent) :
    (t.runOps ops).activeCount ≤ (t.runOps ops).max_concurrent := by
  induction ops generalizing t with
  | nil => exact hinv
  | cons op rest ih =>
    simp only [TaskTracker.guardedOps, Bool.and_eq_true] at hg
    simp only [TaskTracker.runOps]
    refine ih (t.applyOp op) hg.2 ?_
    rw [TaskTracker.applyOp_max_concurrent]
    exact t.applyOp_activeCount_le op hg.1 hinv

theorem TaskTracker.runOps_max_concurrent (ops : List TrackerOp) (t : TaskTracker) :
    (t.runOps ops).max_concurrent = t.max_concurrent := by
  induction ops generalizing t with
  | nil => rfl
  | cons op rest ih =>
    simp only [TaskTracker.runOps]
    rw [ih, TaskTracker.applyOp_max_concurrent]

theorem TaskTable.lookup_insert (l : TaskTable) (id : String) (t : ActiveTask) :
    (l.insert id t).lookup id = some t := by
  induction l with
  | nil => simp [TaskTable.insert, TaskTable.lookup]
  | cons e rest ih =>
    obtain ⟨k, v⟩ := e
    by_cases h : k = id
    · rw [show TaskTable.insert ((k, v) :: rest) id t = (id, t) :: rest from by
        rw [TaskTable.insert]; simp [h]]
      rw [TaskTable.lookup]
      simp
    · rw [show TaskTable.insert ((k, v) :: rest) id t
          = (k, v) :: TaskTable.insert rest id t from by
        rw [TaskTable.insert]; simp [h]]
      rw [TaskTable.lookup]
      simp [h, ih]

theorem TaskTable.lookup_modify (l : TaskTable) (id : String)
    (f : ActiveTask → ActiveTask) :
    (l.modify id f).lookup id = (l.lookup id).map f := by
  induction l with
  | nil => simp [TaskTable.modify, TaskTable.lookup]
  | cons e rest ih =>
    obtain ⟨k, v⟩ := e
    by_cases h : k = id
    · rw [show TaskTable.modify ((k, v) :: rest) id f = (k, f v) :: rest from by
        rw [TaskTable.modify]; simp [h]]
      rw [TaskTable.lookup, TaskTable.lookup]
      simp [h]
    · rw [show TaskTable.modify ((k, v) :: rest) id f
          = (k, v) :: TaskTable.modify rest id f from by
        rw [TaskTable.modify]; simp [h]]
      rw [TaskTable.lookup, TaskTable.lookup]
      simp [h, ih]

theorem TaskTable.lookup_filter_key (l : TaskTable) (q : String → Bool)
    (id : String) :
    TaskTable.lookup (l.filter fun e => q e.1) id
      = if q id = true then TaskTable.lookup l id else none := by
  induction l with
  | nil => simp [TaskTable.lookup]
  | cons e rest ih =>
    obtain ⟨k, v⟩ := e
    by_cases h : k = id
    · subst h
      by_cases hq : q k = true
      · simp [List.filter_cons, hq, TaskTable.lookup]
      · simp [List.filter_cons, hq, ih, TaskTable.lookup]
    · by_cases hq : q k = true
      · simp [List.filter_cons, hq, ih, TaskTable.lookup, h]
      · simp [List.filter_cons, hq, ih, TaskTable.lookup, h]

theorem TaskTable.mem_of_lookup (l : TaskTable) (id : String) (v : ActiveTask)
    (h : l.lookup id = some v) : (id, v) ∈ l := by
  induction l with
  | nil => simp [TaskTable.lookup] at h
  | cons e rest ih =>
    obtain ⟨k, w⟩ := e
    rw [TaskTable.lookup] at h
    by_cases hk : k = id
    · rw [if_pos hk] at h
      cases h
      subst hk
      exact List.mem_cons_self _ _
    · rw [if_neg hk] at h
      exact List.mem_cons_of_mem _ (ih h)

theorem TaskTable.lookup_of_mem_nodup (l : TaskTable) (id : String) (v : ActiveTask)
    (hnd : (l.map Prod.fst).Nodup) (hm : (id, v) ∈ l) : l.lookup id = some v := by
  induction l with
  | nil => simp at hm
  | cons e rest ih =>
    obtain ⟨k, w⟩ := e
    simp only [List.map_cons, List.nodup_cons] at hnd
    rw [TaskTable.lookup]
    rcases List.mem_cons.mp hm with h | h
    · cases h
      simp
    · have hk : k ≠ id := by
        intro hk
        subst hk
        exact hnd.1 (List.mem_map.mpr ⟨(k, v), h, rfl⟩)
      rw [if_neg hk]
      exact ih hnd.2 h

/-! ## Claims C1 to C3: the task tracker -/

/-- **C1 (amended).** For every guarded sequence of Task Tracker operations
starting from an empty tracker — one in which `mark_running` is never
applied to a task already in a terminal state — the number of Queued or
Running tasks never exceeds `max_concurrent`; and `add_task` called when
that count equals `max_concurrent` returns false (capacity exhausted) and
leaves the tracker, in particular its task table, unchanged. (The guard is
necessary: `TaskTracker::mark_running` does not check the prior state, so
re-running a Completed task can push the active count above the cap, see
the counterexample.) -/
theorem C1_capacity_invariant :
    (∀ (mc : Nat) (ops : List TrackerOp),
        (TaskTracker.new mc).guardedOps ops = true →
        (TaskTracker.runOps (TaskTracker.new mc) ops).activeCount ≤ mc)
    ∧ (∀ (t : TaskTracker) (a : TaskAssignmentMessage) (now : Nat),
        t.activeCount = t.max_concurrent → t.add_task a now = (false, t)) := by
  constructor
  · intro mc ops hg
    have h := TaskTracker.runOps_activeCount_le ops (TaskTracker.new mc) hg
      (by simp [TaskTracker.new, TaskTracker.activeCount])
    rwa [TaskTracker.runOps_max_concurrent] at h
  · intro t a now h
    rw [TaskTracker.add_task]
    simp only [ge_iff_le, h, le_refl, if_true]

/-- Witness for C1: a concrete guarded trace keeps the count within the
cap, and adding to a tracker already at capacity is rejected verbatim. -/
theorem C1_capacity_invariant_witness :
    ((TaskTracker.new 2).guardedOps [.add (sampleAssignment "a") 0] = true
      ∧ (TaskTracker.runOps (TaskTracker.new 2)
          [.add (sampleAssignment "a") 0]).activeCount ≤ 2)
    ∧ ((TaskTracker.new 0).activeCount = (TaskTracker.new 0).max_concurrent
      ∧ (TaskTracker.new 0).add_task (sampleAssignment "a") 0
          = (false, TaskTracker.new 0)) :=
  ⟨⟨by decide, C1_capacity_invariant.1 2 [.add (sampleAssignment "a") 0] (by decide)⟩,
   ⟨by decide, C1_capacity_invariant.2 (TaskTracker.new 0) (sampleAssignment "a") 0 (by decide)⟩⟩

/-- **C1 counterexample.** The claim as stated quantifies over *every*
sequence of Task Tracker operations. With `max_concurrent = 1`, the
sequence add(a); mark_completed(a); add(b); mark_running(a) leaves the
tracker with two Queued/Running tasks: `mark_running` resurrects the
Completed task `a`, so Running+Queued = 2 > 1 = max_concurrent. -/
theorem C1_counterexample :
    (TaskTracker.new 1).max_concurrent = 1
    ∧ (TaskTracker.runOps (TaskTracker.new 1)
        [.add (sampleAssignment "a") 0, .markCompleted "a" 1,
         .add (sampleAssignment "b") 2, .markRunning "a" 3]).activeCount = 2 := by
  decide

/-- **C2 (amended).** `TaskTracker::add_task` performs no duplicate-id
check at all: whenever the tracker is below capacity, an assignment whose
task id already has an entry — terminal or *not* — succeeds and replaces
the prior entry with a fresh Queued entry built from the new assignment.
(The original claim said a Queued/Running prior entry causes rejection;
the counterexample shows the replacement.) -/
theorem C2_duplicate_add_replaces :
    ∀ (t : TaskTracker) (a : TaskAssignmentMessage) (now : Nat),
      t.activeCount < t.max_concurrent →
      (t.add_task a now).1 = true
      ∧ (t.add_task a now).2.tasks.lookup a.task_id
          = some (ActiveTask.new a now) := by
  intro t a now h
  rw [TaskTracker.add_task]
  simp only [ge_iff_le]
  rw [if_neg (by omega)]
  exact ⟨rfl, TaskTable.lookup_insert _ _ _⟩

/-- Witness for C2: re-adding id `t` to `dupTracker` (which holds a Queued
entry for `t` and is below capacity) succeeds and stores the fresh entry. -/
theorem C2_duplicate_add_replaces_witness :
    dupTracker.activeCount < dupTracker.max_concurrent
    ∧ (dupTracker.add_task (sampleAssignment "t") 5).1 = true
    ∧ (dupTracker.add_task (sampleAssignment "t") 5).2.tasks.lookup "t"
        = some (ActiveTask.new (sampleAssignment "t") 5) :=
  ⟨by decide,
   (C2_duplicate_add_replaces dupTracker (sampleAssignment "t") 5 (by decide)).1,
   (C2_duplicate_add_replaces dupTracker (sampleAssignment "t") 5 (by decide)).2⟩

/-- **C2 counterexample.** `dupTracker` holds a Queued (non-terminal) entry
for id `t` received at time 0. The claim says a duplicate add must be
rejected with the prior entry unchanged; instead `add_task` returns true
and the entry is replaced by a fresh Queued entry received at time 5. -/
theorem C2_counterexample :
    (dupTracker.tasks.lookup "t").map (fun tk => tk.state) = some .queued
    ∧ (dupTracker.add_task (sampleAssignment "t") 5).1 = true
    ∧ ((dupTracker.add_task (sampleAssignment "t") 5).2.tasks.lookup "t").map
        (fun tk => tk.received_at) = some 5
    ∧ (dupTracker.tasks.lookup "t").map (fun tk => tk.received_at) = some 0 := by
  decide

/-- **C3 (amended).** Of the four transition operations, only cancellation
is guarded: `cancel_task` on a task in a terminal state returns false and
leaves the tracker unchanged. `mark_running`, `mark_completed` and
`mark_failed` apply to any present task unconditionally — in particular
they overwrite terminal states (Completed → Running happens, see the
counterexample), rather than being dropped. -/
theorem C3_terminal_transitions :
    ∀ (t : TaskTracker) (id : String) (now : Nat) (err : String),
      (t.tasks.lookup id).map (fun tk => tk.state.isTerminal) = some true →
      t.cancel_task id now = (false, t)
      ∧ ((t.mark_running id now).2.tasks.lookup id).map (fun tk => tk.state)
          = some .running
      ∧ ((t.mark_completed id now).tasks.lookup id).map (fun tk => tk.state)
          = some .completed
      ∧ ((t.mark_failed id err now).tasks.lookup id).map (fun tk => tk.state)
          = some .failed := by
  intro t id now err hpre
  obtain ⟨task, hl, hterm⟩ : ∃ task, t.tasks.lookup id = some task
      ∧ task.state.isTerminal = true := by
    cases hx : t.tasks.lookup id with
    | none => rw [hx] at hpre; simp at hpre
    | some task =>
      rw [hx] at hpre
      simp only [Option.map_some', Option.some_inj] at hpre
      exact ⟨task, rfl, hpre⟩
  have hnr : ¬(task.state = .running ∨ task.state = .queued) := by
    intro h
    rcases h with h | h <;> rw [h] at hterm <;> simp [TaskState.isTerminal] at hterm
  refine ⟨?_, ?_, ?_, ?_⟩
  · rw [TaskTracker.cancel_task, hl]
    simp only
    rw [if_neg hnr]
  · rw [TaskTracker.mark_running, hl]
    simp only
    rw [TaskTable.lookup_modify, hl]
    rfl
  · rw [TaskTracker.mark_completed, hl]
    simp only
    rw [TaskTable.lookup_modify, hl]
    rfl
  · rw [TaskTracker.mark_failed, hl]
    simp only
    rw [TaskTable.lookup_modify, hl]
    rfl

/-- Witness for C3, on the concrete tracker whose task `a` is Completed. -/
theorem C3_terminal_transitions_witness :
    termTracker.cancel_task "a" 3 = (false, termTracker)
    ∧ ((termTracker.mark_running "a" 3).2.tasks.lookup "a").map
        (fun tk => tk.state) = some .running
    ∧ ((termTracker.mark_completed "a" 3).tasks.lookup "a").map
        (fun tk => tk.state) = some .completed
    ∧ ((termTracker.mark_failed "a" "boom" 3).tasks.lookup "a").map
        (fun tk => tk.state) = some .failed :=
  C3_terminal_transitions termTracker "a" 3 "boom" (by decide)

/-- **C3 counterexample.** In `termTracker` the task `a` is Completed; the
claim says `mark_running` must leave it unchanged, but the call flips its
state back to Running (and the illegal transition is not dropped). -/
theorem C3_counterexample :
    (termTracker.tasks.lookup "a").map (fun tk => tk.state) = some .completed
    ∧ ((termTracker.mark_running "a" 3).2.tasks.lookup "a").map
        (fun tk => tk.state) = some .running := by
  decide

/-! ## Claim C4: timeout results -/

/-- **C4.** For every submitted assignment whose backend execution does not
complete within `timeout_secs` (the `tokio::time::timeout` elapses), the
`TaskResultMessage` emitted on the result channel has `success = false`,
`error.code = "E501"` and `error.retryable = true`. -/
theorem C4_timeout_result :
    ∀ (tracker : TaskTracker) (a : TaskAssignmentMessage) (wid : String)
      (t1 t2 : Nat),
      ((execute_task tracker a wid .timedOut t1 t2).2).success = false
      ∧ ((execute_task tracker a wid .timedOut t1 t2).2).error.map
          (fun e => e.code) = some "E501"
      ∧ ((execute_task tracker a wid .timedOut t1 t2).2).error.map
          (fun e => e.retryable) = some true :=
  fun _ _ _ _ _ => ⟨rfl, rfl, rfl⟩

/-! ## Claim C5: backend selection order -/

theorem BackendRegistry.bestLoop_map_fst (reg : BackendRegistry) (tt : TaskType) :
    ∀ l : List BackendType,
      (reg.bestLoop tt l).map Prod.fst
        = l.find? (fun bt => reg.supports bt tt) := by
  intro l
  induction l with
  | nil => rfl
  | cons bt rest ih =>
    rw [BackendRegistry.bestLoop, List.find?]
    cases h : reg bt with
    | none =>
      have hs : BackendRegistry.supports reg bt tt = false := by
        rw [BackendRegistry.supports, h]
      rw [hs]
      exact ih
    | some caps =>
      cases hc : caps.contains tt with
      | false =>
        have hs : BackendRegistry.supports reg bt tt = false := by
          rw [BackendRegistry.supports, h]
          exact hc
        rw [hs]
        dsimp only
        rw [if_neg (by rw [hc]; exact Bool.false_ne_true)]
        exact ih
      | true =>
        have hs : BackendRegistry.supports reg bt tt = true := by
          rw [BackendRegistry.supports, h]
          exact hc
        rw [hs]
        dsimp only
        rw [if_pos hc]
        rfl

theorem BackendRegistry.bestLoop_sound (reg : BackendRegistry) (tt : TaskType) :
    ∀ (l : List BackendType) (bt : BackendType) (caps : List TaskType),
      reg.bestLoop tt l = some (bt, caps) →
      reg bt = some caps ∧ caps.contains tt = true := by
  intro l
  induction l with
  | nil => intro bt caps h; cases h
  | cons b rest ih =>
    intro bt caps h
    rw [BackendRegistry.bestLoop] at h
    cases hb : reg b with
    | none =>
      simp only [hb] at h
      exact ih bt caps h
    | some cs =>
      simp only [hb] at h
      by_cases hc : cs.contains tt = true
      · rw [if_pos hc] at h
        cases h
        exact ⟨hb, hc⟩
      · rw [if_neg hc] at h
        exact ih bt caps h

/-- **C5.** `best_backend_for_task` scans backends in the fixed priority
order of the spec — CUDA, ROCm, Vulkan, OpenAI, CPU, crawler, mock — and
returns the first registered backend whose capabilities contain the task
kind. (Determinism is immediate: the result is a function of the registry
state and the task kind alone.) -/
theorem C5_backend_priority :
    ∀ (reg : BackendRegistry) (tt : TaskType),
      (reg.best_backend_for_task tt).map Prod.fst
        = specPriorityOrder.find? (fun bt => reg.supports bt tt)
      ∧ (∀ (bt : BackendType) (caps : List TaskType),
          reg.best_backend_for_task tt = some (bt, caps) →
          reg bt = some caps ∧ caps.contains tt = true) := by
  intro reg tt
  constructor
  · rw [BackendRegistry.best_backend_for_task]
    exact reg.bestLoop_map_fst tt BackendRegistry.priority
  · intro bt caps h
    exact reg.bestLoop_sound tt BackendRegistry.priority bt caps h

/-- Witness for C5, on a registry holding only a mock backend: the mock
backend is selected for text completion, and the soundness part applies
to that concrete selection. -/
theorem C5_backend_priority_witness :
    (mockOnlyRegistry.best_backend_for_task .textCompletion).map Prod.fst
      = specPriorityOrder.find?
          (fun bt => mockOnlyRegistry.supports bt .textCompletion)
    ∧ mockOnlyRegistry.best_backend_for_task .textCompletion
        = some (.mock, [.textCompletion])
    ∧ mockOnlyRegistry .mock = some [.textCompletion]
    ∧ ([TaskType.textCompletion].contains TaskType.textCompletion) = true :=
  ⟨(C5_backend_priority mockOnlyRegistry .textCompletion).1,
   by decide,
   ((C5_backend_priority mockOnlyRegistry .textCompletion).2 .mock
     [.textCompletion] (by decide)).1,
   ((C5_backend_priority mockOnlyRegistry .textCompletion).2 .mock
     [.textCompletion] (by decide)).2⟩

/-! ## Claim C6: reconnection backoff -/

theorem afterFailures_fields (initial max_d : Nat) :
    ∀ n, (BackoffState.afterFailures initial max_d n).initial_delay = initial
      ∧ (BackoffState.afterFailures initial max_d n).max_delay = max_d := by
  intro n
  induction n with
  | zero => exact ⟨rfl, rfl⟩
  | succ n ih => exact ⟨ih.1, ih.2⟩

theorem backoffSeq_current (initial max_d : Nat) :
    ∀ n, (BackoffState.afterFailures initial max_d n).current_delay
        = backoffSeq initial max_d n := by
  intro n
  induction n with
  | zero => rfl
  | succ n ih =>
    rw [BackoffState.afterFailures, backoffSeq]
    rw [BackoffState.next_backoff]
    simp only
    rw [ih, (afterFailures_fields initial max_d n).2]

/-- **C6.** (spec-modelled) The Session's reconnection backoff sequence
`B_n` satisfies `initial-reconnect-delay ≤ B_n ≤ max-reconnect-delay` and
`B_n ≤ B_{n+1}` for every n until success; the n-th `next_backoff()` call
since the last reset returns `B_n`; and `reset()` — performed on every
successful connection, hence on any successful registration — restores the
initial delay. -/
theorem C6_backoff_bounds :
    ∀ (initial max_d : Nat), initial ≤ max_d →
      (∀ n, initial ≤ backoffSeq initial max_d n
          ∧ backoffSeq initial max_d n ≤ max_d)
      ∧ (∀ n, backoffSeq initial max_d n ≤ backoffSeq initial max_d (n + 1))
      ∧ (∀ n, (BackoffState.afterFailures initial max_d n).next_backoff.1
            = backoffSeq initial max_d n)
      ∧ (∀ b : BackoffState,
          b.reset.current_delay = b.initial_delay
          ∧ b.reset.next_backoff.1 = b.initial_delay) := by
  intro initial max_d him
  have hbound : ∀ n, initial ≤ backoffSeq initial max_d n
      ∧ backoffSeq initial max_d n ≤ max_d := by
    intro n
    induction n with
    | zero => exact ⟨le_refl _, him⟩
    | succ n ih =>
      rw [backoffSeq]
      omega
  refine ⟨hbound, ?_, ?_, ?_⟩
  · intro n
    have := hbound n
    rw [backoffSeq]
    omega
  · intro n
    rw [BackoffState.next_backoff]
    exact backoffSeq_current initial max_d n
  · intro b
    exact ⟨rfl, rfl⟩

/-- Witness for C6 at `initial = 1`s, `max = 60`s (the defaults of
`CoordinatorClientConfig`), seven failures deep. -/
theorem C6_backoff_bounds_witness :
    (1 : Nat) ≤ 60
    ∧ 1 ≤ backoffSeq 1 60 7 ∧ backoffSeq 1 60 7 ≤ 60
    ∧ backoffSeq 1 60 7 ≤ backoffSeq 1 60 8
    ∧ (BackoffState.afterFailures 1 60 7).next_backoff.1 = backoffSeq 1 60 7
    ∧ (BackoffState.mk_initial 1 60).reset.current_delay
        = (BackoffState.mk_initial 1 60).initial_delay :=
  ⟨by decide,
   ((C6_backoff_bounds 1 60 (by decide)).1 7).1,
   ((C6_backoff_bounds 1 60 (by decide)).1 7).2,
   (C6_backoff_bounds 1 60 (by decide)).2.1 7,
   (C6_backoff_bounds 1 60 (by decide)).2.2.1 7,
   ((C6_backoff_bounds 1 60 (by decide)).2.2.2 (BackoffState.mk_initial 1 60)).1⟩

/-! ## Claim C8: broadcast semantics -/

/-- **C8 (amended).** `broadcast(msg)` performs exactly one send attempt on
every connected peer's write channel, independently of the other peers: a
peer whose channel is *closed* is logged as failed and skipped (its queue
unchanged, no retry) while every peer whose channel is open — even a full
one — eventually receives the message (the bounded `send(...).await`
applies backpressure rather than failing), and the failure report is
exactly the closed peers. (The original claim also said a *full* channel
is skipped; the counterexample shows the message is delivered instead.) -/
theorem C8_broadcast_best_effort :
    ∀ (μ : Type) (conns : Connections μ) (msg : μ),
      (broadcast conns msg).1
        = conns.map (fun pc =>
            (pc.1, if pc.2.closed = true then pc.2
                   else { pc.2 with queue := pc.2.queue ++ [msg] }))
      ∧ (broadcast conns msg).2
          = (conns.filter fun pc => pc.2.closed).map Prod.fst := by
  intro μ conns msg
  induction conns with
  | nil => exact ⟨rfl, rfl⟩
  | cons pc rest ih =>
    obtain ⟨pid, c⟩ := pc
    obtain ⟨hr1, hr2⟩ := ih
    rcases hbr : broadcast rest msg with ⟨rest', failures⟩
    rw [hbr] at hr1 hr2
    simp only at hr1 hr2
    rw [broadcast, hbr]
    by_cases hc : c.closed = true
    · simp [PeerChannel.send, hc, List.filter_cons, hr1, hr2]
    · simp [PeerChannel.send, hc, List.filter_cons, hr1, hr2]

/-- **C8 counterexample.** A peer whose channel is full (1 message queued,
capacity 1) but open is *not* skipped by `broadcast`: the message is
enqueued after the existing one and no failure is logged, contradicting
the claim that a full channel is logged and skipped. -/
theorem C8_counterexample :
    fullOpenChannel.isFull = true
    ∧ (broadcast [("p", fullOpenChannel)] 1).1
        = [("p", { capacity := 1, queue := [0, 1], closed := false })]
    ∧ (broadcast [("p", fullOpenChannel)] 1).2 = [] :=
  ⟨rfl, rfl, rfl⟩

/-! ## Claim C9: failed submissions have no effects -/

theorem TaskTracker.add_task_false (t : TaskTracker) (a : TaskAssignmentMessage)
    (now : Nat) (t' : TaskTracker) (h : t.add_task a now = (false, t')) :
    t' = t := by
  rw [TaskTracker.add_task] at h
  split at h
  · cases h
    rfl
  · simp at h

/-- **C9.** If `TaskExecutor::submit` returns an error (capacity exhausted
or task kind unsupported), then no execution is spawned for the
assignment, the task tracker is unchanged by the call, and no
`TaskResultMessage` for that submission is ever emitted on the result
channel. -/
theorem C9_submit_error_frame :
    ∀ (reg : BackendRegistry) (tracker : TaskTracker) (a : TaskAssignmentMessage)
      (now : Nat) (e : WorkerError),
      (TaskExecutor.submit reg tracker a now).1 = .error e →
      (TaskExecutor.submit reg tracker a now).2.1 = tracker
      ∧ (TaskExecutor.submit reg tracker a now).2.2 = []
      ∧ (∀ (wid : String) (outcome : ExecOutcome) (t1 t2 : Nat),
          submissionResults (TaskExecutor.submit reg tracker a now).2.2
            tracker wid outcome t1 t2 = []) := by
  intro reg tracker a now e h
  simp only [TaskExecutor.submit] at h ⊢
  by_cases h1 : (! tracker.can_accept) = true
  · rw [if_pos h1]
    exact ⟨rfl, rfl, fun _ _ _ _ => rfl⟩
  · by_cases h2 : (! can_handle_task_type reg a.input.task_type) = true
    · rw [if_neg h1, if_pos h2]
      exact ⟨rfl, rfl, fun _ _ _ _ => rfl⟩
    · rcases hadd : tracker.add_task a now with ⟨ok, tr'⟩
      cases ok
      · have hsame := TaskTracker.add_task_false tracker a now tr' hadd
        subst hsame
        rw [if_neg h1, if_neg h2]
        exact ⟨rfl, rfl, fun _ _ _ _ => rfl⟩
      · rw [if_neg h1, if_neg h2, hadd] at h
        simp at h

/-- Witness for C9: submitting to a zero-capacity executor is rejected
with the resource-limit error and has no effects. -/
theorem C9_submit_error_frame_witness :
    (TaskExecutor.submit emptyRegistry (TaskTracker.new 0) (sampleAssignment "a") 0).1
      = .error (.resourceLimit "Maximum concurrent tasks reached")
    ∧ (TaskExecutor.submit emptyRegistry (TaskTracker.new 0)
        (sampleAssignment "a") 0).2.1 = TaskTracker.new 0
    ∧ (TaskExecutor.submit emptyRegistry (TaskTracker.new 0)
        (sampleAssignment "a") 0).2.2 = []
    ∧ submissionResults
        (TaskExecutor.submit emptyRegistry (TaskTracker.new 0)
          (sampleAssignment "a") 0).2.2
        (TaskTracker.new 0) "w" .timedOut 0 0 = [] :=
  ⟨rfl,
   (C9_submit_error_frame emptyRegistry (TaskTracker.new 0) (sampleAssignment "a") 0
     (.resourceLimit "Maximum concurrent tasks reached") rfl).1,
   (C9_submit_error_frame emptyRegistry (TaskTracker.new 0) (sampleAssignment "a") 0
     (.resourceLimit "Maximum concurrent tasks reached") rfl).2.1,
   (C9_submit_error_frame emptyRegistry (TaskTracker.new 0) (sampleAssignment "a") 0
     (.resourceLimit "Maximum concurrent tasks reached") rfl).2.2 "w" .timedOut 0 0⟩

/-! ## Claim C10: cleanup touches only terminal entries -/

theorem TaskTable.lookup_filter_not_contains (l : TaskTable)
    (victims : List String) (id : String) :
    TaskTable.lookup (l.filter fun e => ! victims.contains e.1) id
      = if (! victims.contains id) = true then TaskTable.lookup l id else none :=
  TaskTable.lookup_filter_key l (fun k => ! victims.contains k) id

/-- **C10.** For every `keep_count`, `cleanup_old_tasks` removes only
entries in terminal states: every Queued or Running entry present before
the call is still present and unchanged after it. (The task table of any
tracker reachable from `TaskTracker::new` has nodup keys, matching the
`HashMap` it models.) -/
theorem C10_cleanup_preserves_active :
    ∀ (t : TaskTracker) (keep : Nat) (id : String) (task : ActiveTask),
      (t.tasks.map Prod.fst).Nodup →
      t.tasks.lookup id = some task →
      task.state.isTerminal = false →
      TaskTable.lookup (t.cleanup_old_tasks keep).tasks id = some task := by
  intro t keep id task hnd hl hterm
  unfold TaskTracker.cleanup_old_tasks
  simp only
  rw [TaskTable.lookup_filter_not_contains]
  have hnc : (List.map Prod.fst
      (List.take
        ((List.insertionSort (fun a b => optInstantLe a.2 b.2 = true)
          (List.map (fun e => (e.1, e.2.completed_at))
            (List.filter (fun e => e.2.state.isTerminal) t.tasks))).length - keep)
        (List.insertionSort (fun a b => optInstantLe a.2 b.2 = true)
          (List.map (fun e => (e.1, e.2.completed_at))
            (List.filter (fun e => e.2.state.isTerminal) t.tasks))))).contains id
      = false := by
    rw [Bool.eq_false_iff]
    intro hc
    simp only [List.elem_eq_mem, decide_eq_true_eq] at hc
    have hmem := hc
    obtain ⟨p, hp, hpid⟩ := List.mem_map.mp hmem
    have hps := List.mem_of_mem_take hp
    have hpc : p ∈ List.map (fun e => (e.1, e.2.completed_at))
        (List.filter (fun e => e.2.state.isTerminal) t.tasks) :=
      (List.perm_insertionSort _ _).mem_iff.mp hps
    obtain ⟨ev, hev, hpe⟩ := List.mem_map.mp hpc
    obtain ⟨hel, het⟩ := List.mem_filter.mp hev
    obtain ⟨k, v⟩ := ev
    have hk : k = id := by
      rw [← hpe] at hpid
      exact hpid
    subst hk
    have hlv := TaskTable.lookup_of_mem_nodup t.tasks k v hnd hel
    rw [hl] at hlv
    cases hlv
    rw [hterm] at het
    cases het
  rw [hnc]
  simp [hl]

/-- Witness for C10: cleaning up `mixedTracker` with `keep = 0` removes
the Completed task `b` but leaves the Queued task `a` untouched. -/
theorem C10_cleanup_preserves_active_witness :
    (mixedTracker.tasks.map Prod.fst).Nodup
    ∧ mixedTracker.tasks.lookup "a" = some mixedTaskA
    ∧ mixedTaskA.state.isTerminal = false
    ∧ TaskTable.lookup (mixedTracker.cleanup_old_tasks 0).tasks "a"
        = some mixedTaskA :=
  ⟨by decide, rfl, rfl,
   C10_cleanup_preserves_active mixedTracker 0 "a" mixedTaskA (by decide) rfl rfl⟩

/-! ## Round-trip lemmas for the JSON encoders -/

theorem asNat_encodeNat (n : Nat) : Json.asNat (encodeNat n) = some n := by
  simp [Json.asNat, encodeNat, Rat.den_natCast, Rat.num_natCast, Int.toNat_natCast]

theorem mapMDecode_map {α : Type} (dec : Json → Option α) (enc : α → Json)
    (h : ∀ a, dec (enc a) = some a) :
    ∀ xs : List α, mapMDecode dec (xs.map enc) = some xs := by
  intro xs
  induction xs with
  | nil => rfl
  | cons x rest ih => simp [mapMDecode, h, ih]

theorem decodeList_map {α : Type} (dec : Json → Option α) (enc : α → Json)
    (h : ∀ a, dec (enc a) = some a) (xs : List α) :
    decodeList dec (Json.arr (xs.map enc)) = some xs := by
  rw [decodeList]
  exact mapMDecode_map dec enc h xs

theorem decodeList_encodeStrList (xs : List String) :
    decodeList Json.asString (encodeStrList xs) = some xs := by
  rw [encodeStrList]
  exact decodeList_map Json.asString Json.str (fun a => rfl) xs

theorem decodeList_encodeRatList (xs : List ℚ) :
    decodeList Json.asRat (encodeRatList xs) = some xs := by
  rw [encodeRatList]
  exact decodeList_map Json.asRat Json.num (fun a => rfl) xs

theorem decodePair_encodePair (p : Nat × Nat) :
    decodePair (encodePair p) = some p := by
  obtain ⟨a, b⟩ := p
  simp [encodePair, decodePair, asNat_encodeNat]

theorem decodeOptVal_str (o : Option String) :
    decodeOptVal Json.asString (encodeOption Json.str o) = some o := by
  cases o <;> rfl

theorem decodeOptVal_nat (o : Option Nat) :
    decodeOptVal Json.asNat (encodeOption encodeNat o) = some o := by
  cases o <;> simp [decodeOptVal, encodeOption, Json.isNull, encodeNat,
    Json.asNat, Rat.den_natCast, Rat.num_natCast, Int.toNat_natCast]

theorem decodeOptVal_rat (o : Option ℚ) :
    decodeOptVal Json.asRat (encodeOption Json.num o) = some o := by
  cases o <;> rfl

theorem decodeOptVal_ratList (o : Option (List ℚ)) :
    decodeOptVal (decodeList Json.asRat) (encodeOption encodeRatList o)
      = some o := by
  cases o with
  | none => rfl
  | some xs =>
    simp [decodeOptVal, encodeOption, encodeRatList, Json.isNull,
      decodeList_map Json.asRat Json.num (fun a => rfl)]

theorem TaskType_roundtrip (t : TaskType) :
    TaskType.fromJson t.toJson = some t := by
  cases t <;> rfl

theorem FinishReason_roundtrip (r : FinishReason) :
    FinishReason.fromJson r.toJson = some r := by
  cases r <;> rfl

theorem SummarizationStyle_roundtrip (s : SummarizationStyle) :
    SummarizationStyle.fromJson s.toJson = some s := by
  cases s <;> rfl

theorem WorkerStatus_roundtrip (s : WorkerStatus) :
    WorkerStatus.fromJson s.toJson = some s := by
  cases s <;> rfl

theorem TaskPriority_roundtrip (p : TaskPriority) :
    TaskPriority.fromJson p.toJson = some p := by
  cases p <;> rfl

theorem TokenUsage_roundtrip (u : TokenUsage) :
    TokenUsage.fromJson u.toJson = some u := by
  simp [TokenUsage.toJson, TokenUsage.fromJson, Json.asFields, getReq,
    lookupField, asNat_encodeNat]

theorem ProtocolVersion_roundtrip (v : ProtocolVersion) :
    ProtocolVersion.fromJson v.toJson = some v := by
  simp [ProtocolVersion.toJson, ProtocolVersion.fromJson, Json.asFields,
    getReq, lookupField, asNat_encodeNat]

theorem ClassificationPrediction_roundtrip (p : ClassificationPrediction) :
    ClassificationPrediction.fromJson p.toJson = some p := by
  simp [ClassificationPrediction.toJson, ClassificationPrediction.fromJson,
    Json.asFields, getReq, lookupField, Json.asString, Json.asRat]

theorem TrainingExample_roundtrip (e : TrainingExample) :
    TrainingExample.fromJson e.toJson = some e := by
  simp [TrainingExample.toJson, TrainingExample.fromJson, Json.asFields,
    getReq, lookupField, Json.asString]


theorem ValidationTask_roundtrip (t : ValidationTask) :
    ValidationTask.fromJson t.toJson = some t := by
  cases t with
  | textCompletion x =>
    simp [ValidationTask.toJson, ValidationTask.fromJson, Json.asFields,
      getReq, getOpt, getDef, lookupField,
      TextCompletionInput.toJsonFields, TextCompletionInput.fromFields,
      GenerationParams.toJsonFields, GenerationParams.fromFields,
      Json.asString, asNat_encodeNat, Json.asRat,
      decodeOptVal_str, decodeOptVal_nat, decodeList_encodeStrList]
  | embeddings x =>
    simp [ValidationTask.toJson, ValidationTask.fromJson, Json.asFields,
      getReq, getOpt, getDef, lookupField,
      EmbeddingsInput.toJsonFields, EmbeddingsInput.fromFields,
      Json.asString, Json.asBool, decodeList_encodeStrList]

theorem decodeList_trainingExamples (xs : List TrainingExample) :
    decodeList TrainingExample.fromJson
      (Json.arr (xs.map TrainingExample.toJson)) = some xs :=
  decodeList_map _ _ TrainingExample_roundtrip xs

theorem TaskInput_roundtrip (i : TaskInput) :
    TaskInput.fromJson i.toJson = some i := by
  cases i with
  | textCompletion x =>
    simp [TaskInput.toJson, TaskInput.fromJson, Json.asFields,
      getReq, getOpt, getDef, lookupField,
      TextCompletionInput.toJsonFields, TextCompletionInput.fromFields,
      GenerationParams.toJsonFields, GenerationParams.fromFields,
      Json.asString, asNat_encodeNat, Json.asRat,
      decodeOptVal_str, decodeOptVal_nat, decodeList_encodeStrList]
  | embeddings x =>
    simp [TaskInput.toJson, TaskInput.fromJson, Json.asFields,
      getReq, getOpt, getDef, lookupField,
      EmbeddingsInput.toJsonFields, EmbeddingsInput.fromFields,
      Json.asString, Json.asBool, decodeList_encodeStrList]
  | classification x =>
    simp [TaskInput.toJson, TaskInput.fromJson, Json.asFields,
      getReq, getOpt, getDef, lookupField,
      ClassificationInput.toJsonFields, ClassificationInput.fromFields,
      Json.asString, Json.asBool, decodeList_encodeStrList]
  | questionAnswering x =>
    simp [TaskInput.toJson, TaskInput.fromJson, Json.asFields,
      getReq, getOpt, getDef, lookupField,
      QuestionAnsweringInput.toJsonFields, QuestionAnsweringInput.fromFields,
      GenerationParams.toJsonFields, GenerationParams.fromFields,
      Json.asString, asNat_encodeNat, Json.asRat,
      decodeOptVal_str, decodeOptVal_nat, decodeList_encodeStrList]
  | summarization x =>
    simp [TaskInput.toJson, TaskInput.fromJson, Json.asFields,
      getReq, getOpt, getDef, lookupField,
      SummarizationInput.toJsonFields, SummarizationInput.fromFields,
      GenerationParams.toJsonFields, GenerationParams.fromFields,
      Json.asString, asNat_encodeNat, Json.asRat,
      SummarizationStyle_roundtrip,
      decodeOptVal_str, decodeOptVal_nat, decodeList_encodeStrList]
  | trainingBatch x =>
    simp [TaskInput.toJson, TaskInput.fromJson, Json.asFields,
      getReq, getOpt, getDef, lookupField,
      TrainingBatchInput.toJsonFields, TrainingBatchInput.fromFields,
      Json.asString, asNat_encodeNat, Json.asRat,
      decodeList_trainingExamples]
  | validation x =>
    simp [TaskInput.toJson, TaskInput.fromJson, Json.asFields,
      getReq, getOpt, getDef, lookupField,
      ValidationInput.toJsonFields, ValidationInput.fromFields,
      Json.asString, ValidationTask_roundtrip]
  | webCrawl x =>
    simp [TaskInput.toJson, TaskInput.fromJson, Json.asFields,
      getReq, getOpt, getDef, lookupField,
      WebCrawlInput.toJsonFields, WebCrawlInput.fromFields,
      Json.asString, Json.asBool, asNat_encodeNat, decodeList_encodeStrList]

theorem decodeList_taskTypes (xs : List TaskType) :
    decodeList TaskType.fromJson (Json.arr (xs.map TaskType.toJson)) = some xs :=
  decodeList_map _ _ TaskType_roundtrip xs

theorem decodeList_predictions (xs : List ClassificationPrediction) :
    decodeList ClassificationPrediction.fromJson
      (Json.arr (xs.map ClassificationPrediction.toJson)) = some xs :=
  decodeList_map _ _ ClassificationPrediction_roundtrip xs

theorem decodeList_pairs (xs : List (Nat × Nat)) :
    decodeList decodePair (Json.arr (xs.map encodePair)) = some xs :=
  decodeList_map _ _ decodePair_encodePair xs

theorem decodeList_ratLists (xs : List (List ℚ)) :
    decodeList (decodeList Json.asRat) (Json.arr (xs.map encodeRatList)) = some xs :=
  decodeList_map _ _ decodeList_encodeRatList xs

theorem CrawledPage_roundtrip (p : CrawledPage) :
    CrawledPage.fromJson p.toJson = some p := by
  simp [CrawledPage.toJson, CrawledPage.fromJson, Json.asFields,
    getReq, getOpt, lookupField, Json.asString,
    decodeOptVal_str, decodeOptVal_ratList, decodeList_encodeStrList]

theorem decodeList_crawledPages (xs : List CrawledPage) :
    decodeList CrawledPage.fromJson (Json.arr (xs.map CrawledPage.toJson))
      = some xs :=
  decodeList_map _ _ CrawledPage_roundtrip xs

theorem TextCompletionOutput_roundtrip (o : TextCompletionOutput) :
    TextCompletionOutput.fromJson o.toJson = some o := by
  simp [TextCompletionOutput.toJson, TextCompletionOutput.fromJson,
    Json.asFields, getReq, getDef, lookupField, Json.asString,
    asNat_encodeNat, FinishReason_roundtrip, TokenUsage_roundtrip]

theorem EmbeddingsOutput_roundtrip (o : EmbeddingsOutput) :
    EmbeddingsOutput.fromJson o.toJson = some o := by
  simp [EmbeddingsOutput.toJson, EmbeddingsOutput.fromJson, Json.asFields,
    getReq, lookupField, asNat_encodeNat, decodeList_ratLists,
    TokenUsage_roundtrip]

theorem ClassificationOutput_roundtrip (o : ClassificationOutput) :
    ClassificationOutput.fromJson o.toJson = some o := by
  simp [ClassificationOutput.toJson, ClassificationOutput.fromJson,
    Json.asFields, getReq, lookupField, decodeList_predictions,
    TokenUsage_roundtrip]

theorem QuestionAnsweringOutput_roundtrip (o : QuestionAnsweringOutput) :
    QuestionAnsweringOutput.fromJson o.toJson = some o := by
  simp [QuestionAnsweringOutput.toJson, QuestionAnsweringOutput.fromJson,
    Json.asFields, getReq, getOpt, getDef, lookupField, Json.asString,
    decodeOptVal_rat, decodeList_pairs, TokenUsage_roundtrip]

theorem SummarizationOutput_roundtrip (o : SummarizationOutput) :
    SummarizationOutput.fromJson o.toJson = some o := by
  simp [SummarizationOutput.toJson, SummarizationOutput.fromJson,
    Json.asFields, getReq, lookupField, Json.asString, Json.asRat,
    TokenUsage_roundtrip]

theorem TrainingBatchOutput_roundtrip (o : TrainingBatchOutput) :
    TrainingBatchOutput.fromJson o.toJson = some o := by
  simp [TrainingBatchOutput.toJson, TrainingBatchOutput.fromJson,
    Json.asFields, getReq, getOpt, lookupField, Json.asRat,
    asNat_encodeNat, decodeOptVal_str, decodeList_encodeRatList]

theorem ValidationOutput_roundtrip (o : ValidationOutput)
    (h : optValueWF o.result = true) :
    ValidationOutput.fromJson o.toJson = some o := by
  obtain ⟨valid, answer_hash, result⟩ := o
  cases result with
  | none =>
    simp [ValidationOutput.toJson, ValidationOutput.fromJson, Json.asFields,
      getReq, getOpt, lookupField, Json.asString, Json.asBool,
      encodeOption, decodeOptVal, Json.isNull]
  | some j =>
    have hj : j.isNull = false := by simpa [optValueWF] using h
    simp [ValidationOutput.toJson, ValidationOutput.fromJson, Json.asFields,
      getReq, getOpt, lookupField, Json.asString, Json.asBool,
      encodeOption, decodeOptVal, hj]

theorem WebCrawlOutput_roundtrip (o : WebCrawlOutput) :
    WebCrawlOutput.fromJson o.toJson = some o := by
  simp [WebCrawlOutput.toJson, WebCrawlOutput.fromJson, Json.asFields,
    getReq, lookupField, asNat_encodeNat, decodeList_crawledPages,
    decodeList_encodeStrList]

theorem TaskOutput_toJson_isNull (o : TaskOutput) :
    (TaskOutput.toJson o).isNull = false := by
  cases o <;> rfl

theorem TaskOutput_roundtrip (o : TaskOutput) (h : o.wf = true) :
    TaskOutput.fromJson o.toJson = some o := by
  cases o with
  | validation v =>
    obtain ⟨valid, answer_hash, result⟩ := v
    rw [TaskOutput.wf] at h
    cases result with
    | none =>
      simp [TaskOutput.toJson, TaskOutput.fromJson, ValidationOutput.toJson,
        ValidationOutput.fromJson, Json.asFields, getReq, getOpt, lookupField,
        Json.asString, Json.asBool, encodeOption, decodeOptVal, Json.isNull]
    | some j =>
      have hj : j.isNull = false := by simpa [optValueWF] using h
      simp [TaskOutput.toJson, TaskOutput.fromJson, ValidationOutput.toJson,
        ValidationOutput.fromJson, Json.asFields, getReq, getOpt, lookupField,
        Json.asString, Json.asBool, encodeOption, decodeOptVal, hj]
  | textCompletion x =>
    simp [TaskOutput.toJson, TaskOutput.fromJson, TextCompletionOutput.toJson,
      TextCompletionOutput.fromJson, Json.asFields, getReq, getDef, lookupField,
      Json.asString, asNat_encodeNat, FinishReason_roundtrip, TokenUsage_roundtrip]
  | embeddings x =>
    simp [TaskOutput.toJson, TaskOutput.fromJson, EmbeddingsOutput.toJson,
      EmbeddingsOutput.fromJson, Json.asFields, getReq, lookupField,
      Json.asString, asNat_encodeNat, decodeList_ratLists, TokenUsage_roundtrip]
  | classification x =>
    simp [TaskOutput.toJson, TaskOutput.fromJson, ClassificationOutput.toJson,
      ClassificationOutput.fromJson, Json.asFields, getReq, lookupField,
      Json.asString, decodeList_predictions, TokenUsage_roundtrip]
  | questionAnswering x =>
    simp [TaskOutput.toJson, TaskOutput.fromJson, QuestionAnsweringOutput.toJson,
      QuestionAnsweringOutput.fromJson, Json.asFields, getReq, getOpt, getDef,
      lookupField, Json.asString, decodeOptVal_rat, decodeList_pairs,
      TokenUsage_roundtrip]
  | summarization x =>
    simp [TaskOutput.toJson, TaskOutput.fromJson, SummarizationOutput.toJson,
      SummarizationOutput.fromJson, Json.asFields, getReq, lookupField,
      Json.asString, Json.asRat, TokenUsage_roundtrip]
  | trainingBatch x =>
    simp [TaskOutput.toJson, TaskOutput.fromJson, TrainingBatchOutput.toJson,
      TrainingBatchOutput.fromJson, Json.asFields, getReq, getOpt, lookupField,
      Json.asString, Json.asRat, asNat_encodeNat, decodeOptVal_str,
      decodeList_encodeRatList]
  | webCrawl x =>
    simp [TaskOutput.toJson, TaskOutput.fromJson, WebCrawlOutput.toJson,
      WebCrawlOutput.fromJson, Json.asFields, getReq, lookupField,
      Json.asString, asNat_encodeNat, decodeList_crawledPages,
      decodeList_encodeStrList]

theorem WorkerCapabilities_roundtrip (c : WorkerCapabilities) :
    WorkerCapabilities.fromJson c.toJson = some c := by
  simp [WorkerCapabilities.toJson, WorkerCapabilities.fromJson, Json.asFields,
    getReq, getOpt, lookupField, Json.asString, Json.asBool, asNat_encodeNat,
    decodeList_taskTypes, decodeOptVal_str, decodeOptVal_nat]

theorem ResourceUsageReport_roundtrip (r : ResourceUsageReport) :
    ResourceUsageReport.fromJson r.toJson = some r := by
  simp [ResourceUsageReport.toJson, ResourceUsageReport.fromJson, Json.asFields,
    getReq, getOpt, lookupField, Json.asRat, asNat_encodeNat,
    decodeOptVal_rat, decodeOptVal_nat]

theorem PendingAction_roundtrip (a : PendingAction) :
    PendingAction.fromJson a.toJson = some a := by
  cases a <;>
    simp [PendingAction.toJson, PendingAction.fromJson, Json.asFields,
      getReq, lookupField, Json.asString]

theorem decodeList_pendingActions (xs : List PendingAction) :
    decodeList PendingAction.fromJson (Json.arr (xs.map PendingAction.toJson))
      = some xs :=
  decodeList_map _ _ PendingAction_roundtrip xs

theorem GroupPurposeMessage_roundtrip (p : GroupPurposeMessage) :
    GroupPurposeMessage.fromJson p.toJson = some p := by
  cases p <;>
    simp [GroupPurposeMessage.toJson, GroupPurposeMessage.fromJson,
      Json.asFields, getReq, lookupField, Json.asString, asNat_encodeNat,
      decodeList_taskTypes]

theorem GroupMemberMessage_roundtrip (m : GroupMemberMessage) :
    GroupMemberMessage.fromJson m.toJson = some m := by
  simp [GroupMemberMessage.toJson, GroupMemberMessage.fromJson, Json.asFields,
    getReq, getOpt, lookupField, Json.asString, decodeOptVal_nat]

theorem decodeList_members (xs : List GroupMemberMessage) :
    decodeList GroupMemberMessage.fromJson
      (Json.arr (xs.map GroupMemberMessage.toJson)) = some xs :=
  decodeList_map _ _ GroupMemberMessage_roundtrip xs

theorem PeerDirectoryEntry_roundtrip (p : PeerDirectoryEntry) :
    PeerDirectoryEntry.fromJson p.toJson = some p := by
  simp [PeerDirectoryEntry.toJson, PeerDirectoryEntry.fromJson, Json.asFields,
    getReq, lookupField, Json.asString, WorkerCapabilities_roundtrip,
    WorkerStatus_roundtrip]

theorem decodeList_peerEntries (xs : List PeerDirectoryEntry) :
    decodeList PeerDirectoryEntry.fromJson
      (Json.arr (xs.map PeerDirectoryEntry.toJson)) = some xs :=
  decodeList_map _ _ PeerDirectoryEntry_roundtrip xs

theorem TaskMetrics_roundtrip (m : TaskMetrics) :
    TaskMetrics.fromJson m.toJson = some m := by
  simp [TaskMetrics.toJson, TaskMetrics.fromJson, Json.asFields,
    getReq, getOpt, lookupField, asNat_encodeNat,
    decodeOptVal_nat, decodeOptVal_rat]

theorem TaskError_roundtrip (e : TaskError) (h : optValueWF e.details = true) :
    TaskError.fromJson e.toJson = some e := by
  obtain ⟨code, message, retryable, details⟩ := e
  cases details with
  | none =>
    simp [TaskError.toJson, TaskError.fromJson, Json.asFields, getReq, getOpt,
      lookupField, Json.asString, Json.asBool, encodeOption, decodeOptVal,
      Json.isNull]
  | some j =>
    have hj : j.isNull = false := by simpa [optValueWF] using h
    simp [TaskError.toJson, TaskError.fromJson, Json.asFields, getReq, getOpt,
      lookupField, Json.asString, Json.asBool, encodeOption, decodeOptVal, hj]

theorem TaskError_toJson_isNull (e : TaskError) :
    (TaskError.toJson e).isNull = false := rfl

theorem Json.isNull_null : Json.isNull Json.null = true := rfl

set_option maxHeartbeats 2000000 in
/-- The tagged payload round-trips through the flattened envelope object:
with the envelope metadata fields in front, decoding the fields emitted
for a wellformed `Message` recovers it. -/
theorem Message_roundtrip_flattened (i ts : String) (vj : Json) (m : Message)
    (hwf : m.wf = true) :
    Message.fromFields
      ([("id", Json.str i), ("timestamp", Json.str ts), ("version", vj)]
        ++ m.toJsonFields) = some m := by
  cases m with
  | register r =>
    simp [Message.toJsonFields, Message.fromFields, getReq, getOpt, getDef,
      lookupField, Json.asString, RegisterRequest.toJsonFields,
      RegisterRequest.fromFields, WorkerCapabilities_roundtrip,
      decodeOptVal_str, decodeList_encodeStrList]
  | heartbeat h =>
    simp [Message.toJsonFields, Message.fromFields, getReq, getOpt, getDef,
      lookupField, Json.asString, HeartbeatRequest.toJsonFields,
      HeartbeatRequest.fromFields, WorkerStatus_roundtrip,
      ResourceUsageReport_roundtrip, asNat_encodeNat, decodeList_encodeStrList]
  | taskResult r =>
    obtain ⟨task_id, worker_id, success, output, error, metrics⟩ := r
    cases output with
    | none =>
      cases error with
      | none =>
        simp [Message.toJsonFields, Message.fromFields, getReq, getOpt,
          lookupField, Json.asString, Json.asBool,
          TaskResultMessage.toJsonFields, TaskResultMessage.fromFields,
          encodeOption, decodeOptVal, Json.isNull_null, TaskMetrics_roundtrip]
      | some e =>
        have he : optValueWF e.details = true := by
          simpa [Message.wf] using hwf
        simp [Message.toJsonFields, Message.fromFields, getReq, getOpt,
          lookupField, Json.asString, Json.asBool,
          TaskResultMessage.toJsonFields, TaskResultMessage.fromFields,
          encodeOption, decodeOptVal, Json.isNull_null, TaskError_toJson_isNull,
          TaskError_roundtrip e he, TaskMetrics_roundtrip]
    | some o =>
      cases error with
      | none =>
        have ho : o.wf = true := by
          simpa [Message.wf] using hwf
        simp [Message.toJsonFields, Message.fromFields, getReq, getOpt,
          lookupField, Json.asString, Json.asBool,
          TaskResultMessage.toJsonFields, TaskResultMessage.fromFields,
          encodeOption, decodeOptVal, Json.isNull_null, TaskOutput_toJson_isNull,
          TaskOutput_roundtrip o ho, TaskMetrics_roundtrip]
      | some e =>
        have hwf2 : optValueWF e.details = true ∧ o.wf = true := by
          simpa [Message.wf] using hwf
        simp [Message.toJsonFields, Message.fromFields, getReq, getOpt,
          lookupField, Json.asString, Json.asBool,
          TaskResultMessage.toJsonFields, TaskResultMessage.fromFields,
          encodeOption, decodeOptVal, Json.isNull_null, TaskError_toJson_isNull,
          TaskOutput_toJson_isNull, TaskError_roundtrip e hwf2.1,
          TaskOutput_roundtrip o hwf2.2, TaskMetrics_roundtrip]
  | statusUpdate su =>
    simp [Message.toJsonFields, Message.fromFields, getReq, getOpt,
      lookupField, Json.asString, StatusUpdateMessage.toJsonFields,
      StatusUpdateMessage.fromFields, WorkerStatus_roundtrip, decodeOptVal_str]
  | shutdown sd =>
    simp [Message.toJsonFields, Message.fromFields, getReq, getDef,
      lookupField, Json.asString, Json.asBool, ShutdownMessage.toJsonFields,
      ShutdownMessage.fromFields, decodeList_encodeStrList]
  | registerAck a =>
    simp [Message.toJsonFields, Message.fromFields, getReq, getOpt,
      lookupField, Json.asString, Json.asBool,
      RegisterAckResponse.toJsonFields, RegisterAckResponse.fromFields,
      ProtocolVersion_roundtrip, asNat_encodeNat, decodeOptVal_str]
  | heartbeatAck a =>
    simp [Message.toJsonFields, Message.fromFields, getReq, getDef,
      lookupField, Json.asString, Json.asBool,
      HeartbeatAckResponse.toJsonFields, HeartbeatAckResponse.fromFields,
      decodeList_pendingActions]
  | taskAssignment t =>
    simp [Message.toJsonFields, Message.fromFields, getReq, getOpt, getDef,
      lookupField, Json.asString, Json.asBool,
      TaskAssignmentMessage.toJsonFields, TaskAssignmentMessage.fromFields,
      TaskPriority_roundtrip, TaskInput_roundtrip, asNat_encodeNat,
      decodeOptVal_str]
  | taskCancel c =>
    simp [Message.toJsonFields, Message.fromFields, getReq, getDef,
      lookupField, Json.asString, Json.asBool, TaskCancelMessage.toJsonFields,
      TaskCancelMessage.fromFields]
  | configUpdate c =>
    simp [Message.toJsonFields, Message.fromFields, getReq, getDef,
      lookupField, Json.asString, Json.asBool, ConfigUpdateMessage.toJsonFields,
      ConfigUpdateMessage.fromFields]
  | error e =>
    simp [Message.toJsonFields, Message.fromFields, getReq, getOpt, getDef,
      lookupField, Json.asString, Json.asBool, ErrorMessage.toJsonFields,
      ErrorMessage.fromFields, decodeOptVal_str]
  | peerDiscover p =>
    simp [Message.toJsonFields, Message.fromFields, getReq, lookupField,
      Json.asString, PeerDiscoverMessage.toJsonFields,
      PeerDiscoverMessage.fromFields, WorkerCapabilities_roundtrip]
  | peerDirectory p =>
    simp [Message.toJsonFields, Message.fromFields, getReq, lookupField,
      Json.asString, PeerDirectoryMessage.toJsonFields,
      PeerDirectoryMessage.fromFields, decodeList_peerEntries]
  | groupAssigned g =>
    simp [Message.toJsonFields, Message.fromFields, getReq, lookupField,
      Json.asString, GroupAssignedMessage.toJsonFields,
      GroupAssignedMessage.fromFields, GroupPurposeMessage_roundtrip,
      decodeList_members]
  | groupUpdate g =>
    simp [Message.toJsonFields, Message.fromFields, getReq, getDef,
      lookupField, Json.asString, Json.asBool, GroupUpdateMessage.toJsonFields,
      GroupUpdateMessage.fromFields, decodeList_members]

/-- **C7 (amended).** For every `Message` variant wrapped in a
`MessageEnvelope` whose raw-JSON optional fields (`TaskError.details` and
`ValidationOutput.result`) are not `Some(null)`, decoding the JSON
encoding of the envelope yields the envelope again, preserving id,
timestamp, version and the tagged payload. (The exclusion is forced by
serde: `Some(Value::Null)` serializes to `null` and deserializes to
`None`, see the counterexample.) -/
theorem C7_envelope_roundtrip :
    ∀ env : MessageEnvelope, env.payload.wf = true →
      MessageEnvelope.from_json env.to_json = some env := by
  intro env hwf
  obtain ⟨i, ts, v, payload⟩ := env
  have hm := Message_roundtrip_flattened i ts v.toJson payload hwf
  simp only [List.cons_append, List.nil_append] at hm
  simp [MessageEnvelope.to_json, MessageEnvelope.from_json, Json.asFields,
    getReq, lookupField, Json.asString, ProtocolVersion_roundtrip, hm]

/-- Witness for C7: a concrete TASK_CANCEL envelope round-trips to
itself. -/
theorem C7_envelope_roundtrip_witness :
    sampleEnvelope.payload.wf = true
    ∧ MessageEnvelope.from_json sampleEnvelope.to_json = some sampleEnvelope :=
  ⟨rfl, C7_envelope_roundtrip sampleEnvelope rfl⟩

/-- **C7 counterexample.** The envelope whose TASK_RESULT payload carries
`error.details = Some(Value::Null)` does not round-trip: it decodes to
the envelope with `details = None`, so `from_json (to_json env) ≠ some
env` for this valid Message value. -/
theorem C7_counterexample :
    MessageEnvelope.from_json nullDetailsEnvelope.to_json
      = some nullDetailsEnvelopeDecoded
    ∧ ¬ (MessageEnvelope.from_json nullDetailsEnvelope.to_json
          = some nullDetailsEnvelope) := by
  constructor
  · rfl
  · intro h
    have h0 : MessageEnvelope.from_json nullDetailsEnvelope.to_json
        = some nullDetailsEnvelopeDecoded := rfl
    rw [h0] at h
    have h1 : nullDetailsEnvelopeDecoded = nullDetailsEnvelope :=
      Option.some_inj.mp h
    have h2 := congrArg (fun env : MessageEnvelope =>
      match env.payload with
      | .taskResult r => r.error.map (fun (e : TaskError) => e.details)
      | _ => (none : Option (Option Json))) h1
    simp [nullDetailsEnvelope, nullDetailsEnvelopeDecoded, nullDetailsResult,
      nullDetailsError] at h2

end AI4All
